import Mathlib

set_option maxRecDepth 4000

/-
Verification development for the AMSender mail-merge batch delivery program.

The program's components are shallowly embedded as executable Lean functions:

* `BatchController.run`'s evidence-recording phase (src/batch_controller.py),
  including the keyword-argument surface of the calls it makes into
  `Comprovacao.register_email`;
* `Comprovacao.register_email` / `Comprovacao.finalize` as a state machine over
  the in-memory summary and the on-disk `resumo.json` (src/comprovacao.py);
* `Validators.validate_email` (src/validators.py), with the anchored regular
  expression decided by an equivalent explicit scan;
* `GmailSender.send_email` and `GmailSender.send_batch` (src/gmail_sender.py),
  with the external Gmail API, the template renderer, the file system and the
  stop flag supplied as oracle functions in an environment record, and with
  `time.sleep` calls and callback invocations recorded in an event trace;
* `EmailSender.send_batch` (src/email_sender.py) in the same style;
* `TemplateProcessor.process` (src/template_processor.py) over `List Char`;
* `GoogleOAuth._authenticate_internal` (src/google_oauth.py) with every
  external call (token load, refresh, interactive flow, save, profile
  verification) supplied as an oracle outcome.

Python dictionaries are modelled as association lists or lookup functions,
Python exceptions as `Except` / explicit outcome constructors, and wall-clock
effects as trace events.  User-facing message strings are kept verbatim
(the program's messages are Portuguese; the specification refers to them by
English category names such as "missing address" for "Email não fornecido").
-/

/-! ### Small Python-style string helpers -/

/-- Model of Python `str.lower()` (the strings involved are ASCII). -/
def pyLower (s : String) : String := List.asString (s.toList.map Char.toLower)

/-- Substring scan used to model Python `in` on strings. -/
def listIsInfixOf (sub : List Char) : List Char → Bool
  | [] => sub.isEmpty
  | c :: rest => List.isPrefixOf sub (c :: rest) || listIsInfixOf sub rest

/-- Model of Python substring test `sub in s`. -/
def pyContains (sub s : String) : Bool := listIsInfixOf sub.toList s.toList

/-- Model of Python slicing `s[:n]`. -/
def pyTrunc (n : Nat) (s : String) : String := List.asString (s.toList.take n)

/-- Model of Python `str.strip()` (default whitespace stripping). -/
def pyStripList (s : List Char) : List Char :=
  List.reverse (List.dropWhile Char.isWhitespace
    (List.reverse (List.dropWhile Char.isWhitespace s)))

/-- Model of Python `str.strip()` on `String`. -/
def pyStrip (s : String) : String := List.asString (pyStripList s.toList)

/-- Model of Python `a or b` for an optional numeric value: `None` and `0` are
falsy and fall through to `b`. -/
def pyOrNat (a b : Option Nat) : Option Nat :=
  match a with
  | some n => if n = 0 then b else some n
  | none => b

/-- Model of Python `a or b` for an optional string value: `None` and the empty
string are falsy and fall through to `b`. -/
def pyOrStr (a : Option String) (b : String) : String :=
  match a with
  | some m => if m = "" then b else m
  | none => b

/-! ### C1 — the keyword-argument surface of `BatchController.run`'s calls into
`Comprovacao.register_email`

`Comprovacao.register_email` (src/comprovacao.py lines 268-282) declares exactly
these parameters and has no `**kwargs`: -/

/-- Parameter names of `Comprovacao.register_email` (its `self` elided), from
the `def` at src/comprovacao.py:268. -/
def registerEmailParamNames : List String :=
  ["to_email", "subject", "status", "message", "eml_path", "gmail_message_id",
   "gmail_thread_id", "message_id", "headers", "timestamp_envio",
   "attachments_count", "message_size"]

/-- Keyword-argument names of the `comprovacao.register_email(...)` call that
`BatchController.run` makes for a successful outcome
(src/batch_controller.py lines 93-108). -/
def runSuccessCallKwargNames : List String :=
  ["to_email", "subject", "attachments_count", "status", "message", "eml_path",
   "gmail_message_id", "gmail_thread_id", "message_id", "headers",
   "timestamp_envio", "attachments_hashes", "raw_message", "history_id"]

/-- Keyword-argument names of the `comprovacao.register_email(...)` call that
`BatchController.run` makes for a failed outcome
(src/batch_controller.py lines 111-121). -/
def runErrorCallKwargNames : List String :=
  ["to_email", "subject", "status", "message", "eml_path", "attachments_count",
   "attachments_hashes", "raw_message", "history_id"]

/-- Keyword arguments of a call that do not name any parameter of the callee.
Python raises `TypeError` at call time when this list is non-empty. -/
def unexpectedKwargs (params kwargs : List String) : List String :=
  kwargs.filter (fun k => !(params.contains k))

/-- Python call-binding check: a keyword call succeeds only when every keyword
names a declared parameter (none of the functions involved takes `**kwargs`). -/
def callBindsOk (params kwargs : List String) : Bool :=
  (unexpectedKwargs params kwargs).isEmpty

/-- The evidence-recording phase of `BatchController.run`
(src/batch_controller.py lines 72-126): one `register_email` call per entry of
`stats["detalhes"]`, chosen by the entry's status; there is no `try/except`
around these calls, so a raised `TypeError` propagates out of `run` and aborts
the loop (and the subsequent `comprovacao.finalize()` is never reached).  Each
detail is represented by whether its status is `"enviado"`; the result is the
number of outcomes registered before the run aborted. -/
def BatchController.runRecordPhase : List Bool → Except String Nat
  | [] => Except.ok 0
  | success :: rest =>
    let kwargs := if success then runSuccessCallKwargNames else runErrorCallKwargNames
    if callBindsOk registerEmailParamNames kwargs then
      match BatchController.runRecordPhase rest with
      | Except.ok n => Except.ok (n + 1)
      | Except.error e => Except.error e
    else
      Except.error "TypeError: register_email() got an unexpected keyword argument"

/-! ### C2 — `Comprovacao.register_email` / `Comprovacao.finalize` as a state
machine over the in-memory `resumo` and the on-disk `resumo.json` -/

/-- One entry of `resumo['emails']`, as built by `Comprovacao.register_email`
(src/comprovacao.py lines 311-325).  Timestamps are opaque `Nat` tokens. -/
structure EmailData where
  email : String
  subject : String
  status : String
  timestamp : Nat
  mensagem : String
  eml_path : Option String
  eml_size_bytes : Option Nat
  gmail_message_id : Option String
  gmail_thread_id : Option String
  message_id : Option String
  headers : List (String × String)
  attachments_count : Option Nat
  message_size_bytes : Option Nat
deriving DecidableEq

/-- The `self.resumo` dictionary of `Comprovacao` (src/comprovacao.py
lines 80-91). -/
structure Resumo where
  campanha : String
  timestamp_inicio : Nat
  timestamp_fim : Option Nat
  total : Nat
  enviados : Nat
  erros : Nat
  metodo_envio : Option String
  remetente : Option String
  assunto : Option String
  emails : List EmailData
deriving DecidableEq

/-- Evidence-recorder state: the in-memory `resumo` plus the content of the
on-disk `resumo.json` (and a counter of successful writes of that file). -/
structure CompState where
  resumo : Resumo
  summaryFileOnDisk : Option Resumo
  summaryWrites : Nat
deriving DecidableEq

/-- Arguments of one `register_email` call (matching the parameter list at
src/comprovacao.py:268; `datetime.now()` for a missing `timestamp_envio` and
the `eml_path.stat().st_size` file-system read are supplied by the caller of
the model as `nowTs` and `emlSizeOnDisk`). -/
structure RegArgs where
  to_email : String
  subject : String
  status : String
  message : String
  eml_path : Option String
  gmail_message_id : Option String
  gmail_thread_id : Option String
  message_id : Option String
  headers : List (String × String)
  timestamp_envio : Option Nat
  attachments_count : Option Nat
  message_size : Option Nat
  nowTs : Nat
  emlSizeOnDisk : Option Nat

/-- The fresh state built by `Comprovacao.__init__` (src/comprovacao.py
lines 80-91): zero counters, empty ledger, and no `resumo.json` on disk. -/
def Comprovacao.init (campanhaName : String) (t0 : Nat) : CompState :=
  { resumo :=
      { campanha := campanhaName, timestamp_inicio := t0, timestamp_fim := none,
        total := 0, enviados := 0, erros := 0, metodo_envio := none,
        remetente := none, assunto := none, emails := [] },
    summaryFileOnDisk := none, summaryWrites := 0 }

/-- `Comprovacao.register_email` (src/comprovacao.py lines 268-344): appends the
entry to `resumo['emails']` and increments `enviados` when the status is
`"enviado"`, otherwise `erros`.  It only mutates the in-memory `resumo`; the
text-log writes go through `Comprovacao.log`, which catches every I/O error
internally. -/
def Comprovacao.register_email (a : RegArgs) (st : CompState) : CompState :=
  let ts := a.timestamp_envio.getD a.nowTs
  let emlSize := match a.eml_path with
    | some _ => a.emlSizeOnDisk
    | none => none
  let data : EmailData :=
    { email := a.to_email, subject := a.subject, status := a.status,
      timestamp := ts, mensagem := a.message, eml_path := a.eml_path,
      eml_size_bytes := emlSize, gmail_message_id := a.gmail_message_id,
      gmail_thread_id := a.gmail_thread_id, message_id := a.message_id,
      headers := a.headers, attachments_count := a.attachments_count,
      message_size_bytes := pyOrNat a.message_size emlSize }
  let r1 := { st.resumo with emails := st.resumo.emails ++ [data] }
  let r2 :=
    if a.status = "enviado" then { r1 with enviados := r1.enviados + 1 }
    else { r1 with erros := r1.erros + 1 }
  { st with resumo := r2 }

/-- `Comprovacao.finalize` (src/comprovacao.py lines 363-385): stamps
`timestamp_fim`, sets `total` to the ledger length, then writes the whole
`resumo` to `resumo.json`.  The `json.dump` is wrapped in `try/except`;
`writeOk = false` models an I/O failure, which is logged and swallowed. -/
def Comprovacao.finalize (nowTs : Nat) (writeOk : Bool) (st : CompState) : CompState :=
  let r := { st.resumo with timestamp_fim := some nowTs, total := st.resumo.emails.length }
  if writeOk then
    { resumo := r, summaryFileOnDisk := some r, summaryWrites := st.summaryWrites + 1 }
  else
    { st with resumo := r }

/-- A campaign-lifetime operation on the evidence recorder. -/
inductive CompOp where
  | register (a : RegArgs)
  | finalize (nowTs : Nat) (writeOk : Bool)

/-- Apply one operation to the recorder state. -/
def Comprovacao.applyOp (st : CompState) : CompOp → CompState
  | CompOp.register a => Comprovacao.register_email a st
  | CompOp.finalize nowTs writeOk => Comprovacao.finalize nowTs writeOk st

/-- Run a sequence of recorder operations. -/
def Comprovacao.runOps (st : CompState) (ops : List CompOp) : CompState :=
  ops.foldl Comprovacao.applyOp st

/-! ### `Validators.validate_email` (src/validators.py lines 16-37) -/

/-- Character class `[a-zA-Z0-9._%+-]` of the local part. -/
def isEmailLocalChar (c : Char) : Bool :=
  c.isAlphanum || c = '.' || c = '_' || c = '%' || c = '+' || c = '-'

/-- Character class `[a-zA-Z0-9.-]` of the domain part. -/
def isEmailDomChar (c : Char) : Bool :=
  c.isAlphanum || c = '.' || c = '-'

/-- Decision of `re.match(r'^[a-zA-Z0-9._%+-]+@[a-zA-Z0-9.-]+\.[a-zA-Z]{2,}$', s)`
on the already-stripped string.  The regex is deterministic: the greedy local
run must be followed by `@` (a shorter run would be followed by a local-class
character, not `@`), and in any successful split of the remainder into
`[a-zA-Z0-9.-]+ \. [a-zA-Z]{2,}`, the explicit dot is necessarily the last dot
of the string (everything after it is alphabetic), so it suffices to test the
split at the last dot. -/
def emailRegexMatch (s : List Char) : Bool :=
  let localPart := s.takeWhile isEmailLocalChar
  match s.drop localPart.length with
  | [] => false
  | c :: afterAt =>
    !localPart.isEmpty && c = '@' &&
      (let revTld := afterAt.reverse.takeWhile (fun x => x ≠ '.')
       if revTld.length = afterAt.length then false
       else
         let dom := afterAt.take (afterAt.length - revTld.length - 1)
         let tld := revTld.reverse
         !dom.isEmpty && dom.all isEmailDomChar && tld.all Char.isAlpha &&
           decide (2 ≤ tld.length))

/-- `Validators.validate_email` (src/validators.py lines 16-37). -/
def Validators.validate_email (email : String) : Bool × Option String :=
  if email = "" || pyStrip email = "" then
    (false, some "Email não pode estar vazio")
  else
    let e := pyStrip email
    if emailRegexMatch e.toList then (true, none)
    else (false, some "Formato de email inválido")

/-! ### `GmailSender.send_email` (src/gmail_sender.py lines 129-243)

External effects are supplied by a `SendEnv` oracle: the Gmail API response of
each send attempt, the metadata `get` that follows a successful send, the
outcome of `GmailSender._refresh_auth`, and the locally constructed message
(`_create_message` is pure given the inputs, so its relevant outputs — the
local header mapping and the base64 `raw` body — are environment data).
`time.sleep` calls and API calls are recorded in an event trace. -/

/-- Fields read from the dict returned by `messages().send(...).execute()`. -/
structure SentMsgInfo where
  idOpt : Option String
  threadIdOpt : Option String
  historyIdOpt : Option String

/-- Data carried by a raised `googleapiclient.errors.HttpError`:
`e.resp.status`, `e.error_details[0].get('reason')` (when the details list is
non-empty and has the key), and `str(e)`. -/
structure HttpErrData where
  status : Option Nat
  reasonOpt : Option String
  estr : String

/-- Outcome of one `messages().send(...).execute()` attempt.  On `success`,
`fetchedHeaders` is the header mapping obtained by the follow-up
`messages().get(...)` call, or `none` when that secondary fetch raises. -/
inductive ApiAttemptResult where
  | success (sent : SentMsgInfo) (fetchedHeaders : Option (List (String × String)))
  | httpErr (e : HttpErrData)
  | otherExc (estr : String)

/-- Oracle environment of one `GmailSender.send_email` call. -/
structure SendEnv where
  authenticated : Bool
  serviceOk : Except String Unit
  localHeaders : List (String × String)
  rawB64 : String
  attemptResult : Nat → ApiAttemptResult
  refreshOk : Bool

/-- Events recorded while `send_email` runs. -/
inductive SendEv where
  | apiSend
  | metaFetch
  | refreshAuth (ok : Bool)
  | sleepSecs (n : Nat)
deriving DecidableEq

/-- Python `f"... {x}"` rendering of an optional string (`None` prints as
`"None"`). -/
def pyShowOpt : Option String → String
  | some s => s
  | none => "None"

/-- The success dictionary returned by `GmailSender.send_email` (the keys
`raw` and `history_id` are present only in the fallback branch, src lines
196-204; absent keys are modelled as `none`). -/
structure GmailSuccess where
  message : String
  gmail_message_id : Option String
  gmail_thread_id : Option String
  message_id : Option String
  headers : List (String × String)
  rawOpt : Option String
  history_id : Option String
deriving DecidableEq

/-- Result of `GmailSender.send_email`: `(True, dict)` or `(False, str)`. -/
inductive SendResult where
  | sent (m : GmailSuccess)
  | failed (msg : String)
deriving DecidableEq

/-- The `auth_error` classification at src/gmail_sender.py:211. -/
def isAuthErrorResp (e : HttpErrData) : Bool :=
  (e.status = some 401 || e.status = some 403) ||
    pyContains "auth" (pyLower e.estr) ||
    pyContains "invalid_grant" (pyLower e.estr)

/-- The `for attempt in range(retry_count)` loop of `GmailSender.send_email`
(src/gmail_sender.py lines 167-240), translated as a countdown: `attempt` is
the current 0-based index and `remaining` the number of loop iterations left
(`remaining = retry_count - attempt`; the loop is entered with
`remaining = retry_count`).  `attemptedRefresh` is the `attempted_refresh`
flag.  When the countdown is exhausted the function returns
`"Falha após múltiplas tentativas"` (reachable when the refresh succeeds on
the last attempt and `continue` exhausts the range). -/
def GmailSender.sendGo (env : SendEnv) (retryCount : Nat) :
    Nat → Nat → Bool → SendResult × List SendEv
  | _, 0, _ => (SendResult.failed "Falha após múltiplas tentativas", [])
  | attempt, remaining + 1, attemptedRefresh =>
    match env.attemptResult attempt with
    | ApiAttemptResult.success sent fetched =>
      let messageStr := "Email enviado com sucesso. ID: " ++ pyShowOpt sent.idOpt
      match fetched with
      | some headers =>
        (SendResult.sent
          { message := messageStr, gmail_message_id := sent.idOpt,
            gmail_thread_id := sent.threadIdOpt,
            message_id := List.lookup "Message-ID" headers, headers := headers,
            rawOpt := none, history_id := none },
         [SendEv.apiSend, SendEv.metaFetch])
      | none =>
        (SendResult.sent
          { message := messageStr, gmail_message_id := sent.idOpt,
            gmail_thread_id := sent.threadIdOpt,
            message_id := List.lookup "Message-ID" env.localHeaders,
            headers := env.localHeaders, rawOpt := some env.rawB64,
            history_id := sent.historyIdOpt },
         [SendEv.apiSend, SendEv.metaFetch])
    | ApiAttemptResult.httpErr e =>
      let reason := e.reasonOpt.getD e.estr
      if isAuthErrorResp e && !attemptedRefresh then
        if env.refreshOk then
          let next := GmailSender.sendGo env retryCount (attempt + 1) remaining true
          (next.1, SendEv.apiSend :: SendEv.refreshAuth true :: SendEv.sleepSecs 1 :: next.2)
        else
          (SendResult.failed "Autenticação expirada. Faça login novamente.",
           [SendEv.apiSend, SendEv.refreshAuth false])
      else if reason = "rateLimitExceeded" then
        if attempt < retryCount - 1 then
          let next := GmailSender.sendGo env retryCount (attempt + 1) remaining attemptedRefresh
          (next.1, SendEv.apiSend :: SendEv.sleepSecs 5 :: next.2)
        else
          (SendResult.failed ("Limite de taxa excedido: " ++ e.estr), [SendEv.apiSend])
      else if reason = "quotaExceeded" then
        (SendResult.failed ("Cota excedida: " ++ e.estr), [SendEv.apiSend])
      else
        if attempt < retryCount - 1 then
          let next := GmailSender.sendGo env retryCount (attempt + 1) remaining attemptedRefresh
          (next.1, SendEv.apiSend :: SendEv.sleepSecs 2 :: next.2)
        else
          (SendResult.failed ("Erro Gmail API: " ++ e.estr), [SendEv.apiSend])
    | ApiAttemptResult.otherExc estr =>
      if attempt < retryCount - 1 then
        let next := GmailSender.sendGo env retryCount (attempt + 1) remaining attemptedRefresh
        (next.1, SendEv.apiSend :: SendEv.sleepSecs 2 :: next.2)
      else
        (SendResult.failed ("Erro inesperado: " ++ estr), [SendEv.apiSend])

/-- `GmailSender.send_email` (src/gmail_sender.py lines 129-243) with the
default `retry_count = 3`: the authentication precheck, the `get_service` call
inside the outer `try` (whose failure is caught by the outer handler at
line 242), then the retry loop entered at attempt 0 with 3 iterations
remaining. -/
def GmailSender.send_email (env : SendEnv) : SendResult × List SendEv :=
  if !env.authenticated then
    (SendResult.failed "Não autenticado. Execute authenticate() primeiro.", [])
  else
    match env.serviceOk with
    | Except.error estr => (SendResult.failed ("Erro ao enviar email: " ++ estr), [])
    | Except.ok _ => GmailSender.sendGo env 3 0 3 false

/-! ### `GmailSender.send_batch` (src/gmail_sender.py lines 245-393) and
`EmailSender.send_batch` (src/email_sender.py lines 208-317)

Each loop iteration checks the stop flag, reads `recipient.get('email', '')`,
(Gmail only) validates the address, renders the body via `get_body`, calls
`send_email`, appends a detail dictionary and bumps `enviados`/`erros`, fires
the progress callback, and sleeps the pacing delay when `idx < total` — the
`continue` branches skip the callback and the pacing sleep.  The stop flag is
modelled as a function of its call counter (it is called exactly once per
iteration, at the top); `send_email`'s network behaviour is given per
recipient by `sendEnvOf`.  `send_email` always returns a tuple, with a dict
message on success and a string message on failure, so the defensive
`isinstance` branches of the source resolve statically. -/

/-- A recipient row: a dict from (lower-cased) column name to value. -/
structure Recipient where
  fields : List (String × String)

/-- `recipient.get('email', '')`. -/
def recipientEmail (r : Recipient) : String :=
  (List.lookup "email" r.fields).getD ""

/-- One entry of `detalhes` built by `GmailSender.send_batch`.  Error entries
carry only `email`/`status`/`mensagem`; their remaining keys are modelled as
`none`/`[]`, matching the `detail.get(...)` defaults used by the callers. -/
structure GDetail where
  email : String
  status : String
  mensagem : String
  gmail_message_id : Option String
  gmail_thread_id : Option String
  message_id : Option String
  headers : List (String × String)
  attachments_hashes : List (String × String)
  raw_hash : Option String
  history_id : Option String
  rawOpt : Option String

/-- Oracle environment for one `GmailSender.send_batch` run. -/
structure GBatchEnv where
  render : Recipient → Except String String
  sendEnvOf : Recipient → SendEnv
  attachments : Option (List String)
  hashFile : String → Option String
  pathName : String → String
  hashRawB64 : String → Option String
  stop : Nat → Bool

/-- Events recorded by the batch loops.  Indices are the 1-based `idx` of
`enumerate(recipients, 1)`; `stopCheck n v` is the `n`-th call of the stop
flag returning `v`; `pacingSleep i` is the `time.sleep(self.delay)` executed
after recipient `i`. -/
inductive BatchEv where
  | stopCheck (n : Nat) (v : Bool)
  | renderCall (i : Nat)
  | sendCall (i : Nat)
  | progressCb (i total : Nat)
  | pacingSleep (i : Nat)
deriving DecidableEq

/-- Stage reached by one iteration of the Gmail batch loop for one recipient
(src/gmail_sender.py lines 278-312): empty address, invalid address, renderer
raised, or the `send_email` call was made and returned `res`. -/
inductive GStage where
  | missingEmail
  | invalidEmail (msg : String)
  | renderFailed (err : String)
  | sendDone (res : SendResult)
deriving DecidableEq

/-- Which stage one Gmail iteration reaches for recipient `r`. -/
def GmailSender.stageOf (env : GBatchEnv) (r : Recipient) : GStage :=
  let toEmail := recipientEmail r
  if toEmail = "" then GStage.missingEmail
  else
    match Validators.validate_email toEmail with
    | (false, errMsg) => GStage.invalidEmail (pyOrStr errMsg "Email inválido")
    | (true, _) =>
      match env.render r with
      | Except.error e => GStage.renderFailed e
      | Except.ok _ => GStage.sendDone (GmailSender.send_email (env.sendEnvOf r)).1

/-- The `att_hashes` dict computed on a successful Gmail send
(src/gmail_sender.py lines 317-328): one SHA-256 entry per attachment whose
read+hash succeeds; a raised exception skips that attachment (`except: pass`).
`if attachments:` treats `None` and `[]` alike. -/
def GmailSender.attHashes (env : GBatchEnv) : List (String × String) :=
  match env.attachments with
  | none => []
  | some l =>
    l.foldl (fun acc att =>
      match env.hashFile att with
      | some h => acc ++ [(env.pathName att, h)]
      | none => acc) []

/-- The detail dictionary one Gmail iteration appends for recipient `r`
(src/gmail_sender.py lines 278-361). -/
def GmailSender.detailOf (env : GBatchEnv) (r : Recipient) : GDetail :=
  let toEmail := recipientEmail r
  match GmailSender.stageOf env r with
  | GStage.missingEmail =>
    { email := toEmail, status := "erro", mensagem := "Email não fornecido",
      gmail_message_id := none, gmail_thread_id := none, message_id := none,
      headers := [], attachments_hashes := [], raw_hash := none,
      history_id := none, rawOpt := none }
  | GStage.invalidEmail msg =>
    { email := toEmail, status := "erro", mensagem := msg,
      gmail_message_id := none, gmail_thread_id := none, message_id := none,
      headers := [], attachments_hashes := [], raw_hash := none,
      history_id := none, rawOpt := none }
  | GStage.renderFailed e =>
    { email := toEmail, status := "erro",
      mensagem := "Erro ao processar template: " ++ e,
      gmail_message_id := none, gmail_thread_id := none, message_id := none,
      headers := [], attachments_hashes := [], raw_hash := none,
      history_id := none, rawOpt := none }
  | GStage.sendDone (SendResult.failed msg) =>
    { email := toEmail, status := "erro", mensagem := msg,
      gmail_message_id := none, gmail_thread_id := none, message_id := none,
      headers := [], attachments_hashes := [], raw_hash := none,
      history_id := none, rawOpt := none }
  | GStage.sendDone (SendResult.sent m) =>
    let rawB64 := m.rawOpt
    let rawHash := match rawB64 with
      | none => none
      | some rb => env.hashRawB64 rb
    { email := toEmail, status := "enviado", mensagem := m.message,
      gmail_message_id := m.gmail_message_id,
      gmail_thread_id := m.gmail_thread_id, message_id := m.message_id,
      headers := m.headers, attachments_hashes := GmailSender.attHashes env,
      raw_hash := rawHash, history_id := m.history_id, rawOpt := rawB64 }

/-- Whether the iteration for `r` reaches the `send_email` call. -/
def GmailSender.reachesSend (env : GBatchEnv) (r : Recipient) : Bool :=
  match GmailSender.stageOf env r with
  | GStage.sendDone _ => true
  | _ => false

/-- The events of one non-stopped Gmail iteration at 1-based index `idx`: the
stop check (returning false), the render / send calls its stage makes, then —
only when the iteration does not `continue` — the progress callback and the
pacing sleep for `idx < total`. -/
def GmailSender.traceOf (env : GBatchEnv) (total idx : Nat) (r : Recipient) :
    List BatchEv :=
  BatchEv.stopCheck (idx - 1) false ::
    match GmailSender.stageOf env r with
    | GStage.missingEmail => []
    | GStage.invalidEmail _ => []
    | GStage.renderFailed _ => [BatchEv.renderCall idx]
    | GStage.sendDone _ =>
      [BatchEv.renderCall idx, BatchEv.sendCall idx, BatchEv.progressCb idx total] ++
        (if idx < total then [BatchEv.pacingSleep idx] else [])

/-- The Gmail batch loop (src/gmail_sender.py lines 273-386), processing the
remaining recipients starting at 1-based index `idx`; returns
`(enviados, erros, detalhes, events)` contributed by these iterations. -/
def GmailSender.sendGoBatch (env : GBatchEnv) (total : Nat) :
    List Recipient → Nat → Nat × Nat × List GDetail × List BatchEv
  | [], _ => (0, 0, [], [])
  | r :: rest, idx =>
    if env.stop (idx - 1) then (0, 0, [], [BatchEv.stopCheck (idx - 1) true])
    else
      let d := GmailSender.detailOf env r
      let tr := GmailSender.traceOf env total idx r
      let next := GmailSender.sendGoBatch env total rest (idx + 1)
      ((if d.status = "enviado" then next.1 + 1 else next.1),
       (if d.status = "enviado" then next.2.1 else next.2.1 + 1),
       d :: next.2.2.1, tr ++ next.2.2.2)

/-- The statistics dict returned by `send_batch`. -/
structure GBatchStats where
  total : Nat
  enviados : Nat
  erros : Nat
  detalhes : List GDetail

/-- `GmailSender.send_batch` (src/gmail_sender.py lines 245-393). -/
def GmailSender.send_batch (env : GBatchEnv) (recipients : List Recipient) :
    GBatchStats × List BatchEv :=
  let total := recipients.length
  let res := GmailSender.sendGoBatch env total recipients 1
  ({ total := total, enviados := res.1, erros := res.2.1, detalhes := res.2.2.1 },
   res.2.2.2)

/-- Result of `EmailSender.send_email` as consumed by its batch loop: on
success the dict `{'message': "Email enviado com sucesso",
'gmail_message_id': None, 'gmail_thread_id': None, 'message_id': mid,
'headers': hs}` (lines 186-192 of src/email_sender.py; `message_id` is always
a string — a UUID is synthesized when the header is absent), on failure an
error string.  The SMTP session and retry internals are not the subject of
any claim, so the per-recipient result is an oracle. -/
inductive SmtpSendRes where
  | sent (message_id : String) (headers : List (String × String))
  | failed (msg : String)
deriving DecidableEq

/-- One entry of `detalhes` built by `EmailSender.send_batch` (error entries
carry only `email`/`status`/`mensagem`; missing keys are modelled as `none`/`[]`). -/
structure SDetail where
  email : String
  status : String
  mensagem : String
  gmail_message_id : Option String
  gmail_thread_id : Option String
  message_id : Option String
  headers : List (String × String)

/-- Oracle environment for one `EmailSender.send_batch` run. -/
structure SBatchEnv where
  render : Recipient → Except String String
  send : Recipient → SmtpSendRes
  stop : Nat → Bool

/-- Stage reached by one iteration of the SMTP batch loop
(src/email_sender.py lines 241-264): there is no address-validation step. -/
inductive SStage where
  | missingEmail
  | renderFailed (err : String)
  | sendDone (res : SmtpSendRes)
deriving DecidableEq

/-- Which stage one SMTP iteration reaches for recipient `r`. -/
def EmailSender.stageOf (env : SBatchEnv) (r : Recipient) : SStage :=
  let toEmail := recipientEmail r
  if toEmail = "" then SStage.missingEmail
  else
    match env.render r with
    | Except.error e => SStage.renderFailed e
    | Except.ok _ => SStage.sendDone (env.send r)

/-- The detail dictionary one SMTP iteration appends for recipient `r`
(src/email_sender.py lines 241-302). -/
def EmailSender.detailOf (env : SBatchEnv) (r : Recipient) : SDetail :=
  let toEmail := recipientEmail r
  match EmailSender.stageOf env r with
  | SStage.missingEmail =>
    { email := toEmail, status := "erro", mensagem := "Email não fornecido",
      gmail_message_id := none, gmail_thread_id := none, message_id := none,
      headers := [] }
  | SStage.renderFailed e =>
    { email := toEmail, status := "erro",
      mensagem := "Erro ao processar template: " ++ e,
      gmail_message_id := none, gmail_thread_id := none, message_id := none,
      headers := [] }
  | SStage.sendDone (SmtpSendRes.failed msg) =>
    { email := toEmail, status := "erro", mensagem := msg,
      gmail_message_id := none, gmail_thread_id := none, message_id := none,
      headers := [] }
  | SStage.sendDone (SmtpSendRes.sent mid hs) =>
    { email := toEmail, status := "enviado",
      mensagem := "Email enviado com sucesso", gmail_message_id := none,
      gmail_thread_id := none, message_id := some mid, headers := hs }

/-- Whether the SMTP iteration for `r` reaches the `send_email` call. -/
def EmailSender.reachesSend (env : SBatchEnv) (r : Recipient) : Bool :=
  match EmailSender.stageOf env r with
  | SStage.sendDone _ => true
  | _ => false

/-- The events of one non-stopped SMTP iteration at 1-based index `idx`. -/
def EmailSender.traceOf (env : SBatchEnv) (total idx : Nat) (r : Recipient) :
    List BatchEv :=
  BatchEv.stopCheck (idx - 1) false ::
    match EmailSender.stageOf env r with
    | SStage.missingEmail => []
    | SStage.renderFailed _ => [BatchEv.renderCall idx]
    | SStage.sendDone _ =>
      [BatchEv.renderCall idx, BatchEv.sendCall idx, BatchEv.progressCb idx total] ++
        (if idx < total then [BatchEv.pacingSleep idx] else [])

/-- The SMTP batch loop (src/email_sender.py lines 236-310). -/
def EmailSender.sendGoBatch (env : SBatchEnv) (total : Nat) :
    List Recipient → Nat → Nat × Nat × List SDetail × List BatchEv
  | [], _ => (0, 0, [], [])
  | r :: rest, idx =>
    if env.stop (idx - 1) then (0, 0, [], [BatchEv.stopCheck (idx - 1) true])
    else
      let d := EmailSender.detailOf env r
      let tr := EmailSender.traceOf env total idx r
      let next := EmailSender.sendGoBatch env total rest (idx + 1)
      ((if d.status = "enviado" then next.1 + 1 else next.1),
       (if d.status = "enviado" then next.2.1 else next.2.1 + 1),
       d :: next.2.2.1, tr ++ next.2.2.2)

/-- The statistics dict returned by `EmailSender.send_batch`. -/
structure SBatchStats where
  total : Nat
  enviados : Nat
  erros : Nat
  detalhes : List SDetail

/-- `EmailSender.send_batch` (src/email_sender.py lines 208-317). -/
def EmailSender.send_batch (env : SBatchEnv) (recipients : List Recipient) :
    SBatchStats × List BatchEv :=
  let total := recipients.length
  let res := EmailSender.sendGoBatch env total recipients 1
  ({ total := total, enviados := res.1, erros := res.2.1, detalhes := res.2.2.1 },
   res.2.2.2)

/-! ### `TemplateProcessor.process` (src/template_processor.py lines 89-117)

Strings are handled as `List Char`.  The opening and closing brace characters
are named `lbChar`/`rbChar`.  `re.findall(r'\{\{(\w+)\}\}', s)` and
`re.sub(r'\{\{[^}]+\}\}', '', s)` are deterministic: after `{{`, the greedy
one-or-more character class must be followed immediately by `}}`, and
backtracking cannot help (shortening the maximal run leaves a character of the
same class next, which can never match `}`), so a match at a position exists
iff the maximal run is non-empty and followed by `}}`; on failure the scan
advances one position, and after a match it resumes past the match. -/

/-- The `{` character. -/
def lbChar : Char := Char.ofNat 123

/-- The `}` character. -/
def rbChar : Char := Char.ofNat 125

/-- Python regex word character `\w` (the ASCII fragment relevant here). -/
def isWordChar (c : Char) : Bool := c.isAlphanum || c = '_'

/-- Model of `re.findall(r'\{\{(\w+)\}\}', s)`: the list of captured names. -/
def findPlaceholders : List Char → List (List Char)
  | [] => []
  | c :: rest =>
    if c = lbChar then
      match rest with
      | [] => []
      | c2 :: rest2 =>
        if c2 = lbChar then
          if rest2.takeWhile isWordChar ≠ [] ∧
              (rest2.drop (rest2.takeWhile isWordChar).length).take 2 =
                [rbChar, rbChar] then
            rest2.takeWhile isWordChar ::
              findPlaceholders
                ((rest2.drop (rest2.takeWhile isWordChar).length).drop 2)
          else findPlaceholders (c2 :: rest2)
        else findPlaceholders (c2 :: rest2)
    else findPlaceholders rest
termination_by s => s.length
decreasing_by
  all_goals simp only [List.drop_drop, List.length_drop, List.length_cons]
  all_goals omega

/-- Model of Python `s.replace(pat, repl)` for a non-empty `pat` (every pattern
passed below is a brace-delimited token): left-to-right, non-overlapping. -/
def replaceAll (pat repl : List Char) : List Char → List Char
  | [] => []
  | c :: rest =>
    if List.isPrefixOf pat (c :: rest) then
      repl ++ replaceAll pat repl (rest.drop (pat.length - 1))
    else c :: replaceAll pat repl rest
termination_by s => s.length
decreasing_by
  all_goals simp only [List.length_drop, List.length_cons]
  all_goals omega

/-- Model of `re.sub(r'\{\{[^}]+\}\}', '', s)`: every remaining
placeholder-shaped token is removed. -/
def stripUnresolved : List Char → List Char
  | [] => []
  | c :: rest =>
    if c = lbChar then
      match rest with
      | [] => [c]
      | c2 :: rest2 =>
        if c2 = lbChar then
          if rest2.takeWhile (fun x => x ≠ rbChar) ≠ [] ∧
              (rest2.drop (rest2.takeWhile (fun x => x ≠ rbChar)).length).take 2 =
                [rbChar, rbChar] then
            stripUnresolved
              ((rest2.drop (rest2.takeWhile (fun x => x ≠ rbChar)).length).drop 2)
          else c :: stripUnresolved (c2 :: rest2)
        else c :: stripUnresolved (c2 :: rest2)
    else c :: stripUnresolved rest
termination_by s => s.length
decreasing_by
  all_goals simp only [List.drop_drop, List.length_drop, List.length_cons]
  all_goals omega

/-- Python `str.lower()` over `List Char`. -/
def pyLowerList (s : List Char) : List Char := s.map Char.toLower

/-- Python `str.upper()` over `List Char`. -/
def pyUpperList (s : List Char) : List Char := s.map Char.toUpper

/-- Python `str.capitalize()`: first character upper-cased, rest lower-cased. -/
def pyCapitalizeList : List Char → List Char
  | [] => []
  | c :: t => Char.toUpper c :: t.map Char.toLower

/-- The literal token `{{name}}`. -/
def phToken (name : List Char) : List Char :=
  lbChar :: lbChar :: name ++ [rbChar, rbChar]

/-- `TemplateProcessor.process` (src/template_processor.py lines 89-117) on a
loaded template `content` against the recipient record `data` (the dict is a
lookup function; `data.get(key, '')` is `(data key).getD []`):  for each
captured placeholder name, the exact, upper-cased and capitalized variants of
the token are all replaced by the value bound to the lower-cased key, then
every remaining placeholder-shaped token is stripped. -/
def TemplateProcessor.process (content : List Char)
    (data : List Char → Option (List Char)) : List Char :=
  let placeholders := findPlaceholders content
  let result := placeholders.foldl (fun res p =>
    let value := (data (pyLowerList p)).getD []
    let res1 := replaceAll (phToken p) value res
    let res2 := replaceAll (phToken (pyUpperList p)) value res1
    replaceAll (phToken (pyCapitalizeList p)) value res2) content
  stripUnresolved result

/-! ### `GoogleOAuth._authenticate_internal` (src/google_oauth.py lines 114-370)

Every external call is an oracle outcome in `AuthEnv`; `AuthState` threads
`self.creds` and whether the token file exists on disk.  Exceptions that the
body does not handle are `BodyOutcome.raised` and fall to the outer
`except` clauses of lines 323-370 (`authHandleTop`).  The inner flow handlers
(lines 193-244), the save handler (lines 256-265) and the verification block
(lines 270-316) return or swallow as in the source.  The only statements of
the verification block outside its own `except` handlers' reach are inside
those handlers (for example the `e.resp.status` attribute access), so an error
escaping it is a plain exception (`AttributeError`-like), never a
`FileNotFoundError`/`PermissionError`. -/

/-- The fields of `google.oauth2.credentials.Credentials` that the code
reads. -/
structure Creds where
  valid : Bool
  expired : Bool
  hasRefreshToken : Bool
deriving DecidableEq

/-- A raised Python exception: its type name, `str(e)`, and whether it is a
`FileNotFoundError` / `PermissionError` (matched by the dedicated outer
handlers). -/
structure PyErr where
  typeName : String
  estr : String
  isFileNotFound : Bool
  isPermission : Bool
deriving DecidableEq

/-- Outcome of `flow.run_local_server(...)` (src/google_oauth.py lines
176-186): credentials obtained, or one of the raise modes its handlers
distinguish. -/
inductive FlowOutcome where
  | obtained (c : Creds)
  | cancelledInterrupt
  | warningRaised (w : String)
  | excRaised (e : PyErr)

/-- Oracle environment of one `_authenticate_internal` run. -/
structure AuthEnv where
  tokenExists0 : Bool
  loadResult : Except PyErr Creds
  refreshResult : Except PyErr Creds
  credentialsFileExists : Bool
  credentialsFilePath : String
  logFilePath : String
  flowOutcome : FlowOutcome
  saveOk : Bool
  saveRetryOk : Bool
  verifyRaises : Option String

/-- Mutable state of the run: `self.creds` and whether the token file is on
disk. -/
structure AuthState where
  creds : Option Creds
  tokenOnDisk : Bool
deriving DecidableEq

/-- How the `try` body of `_authenticate_internal` ends: a `return`, or an
exception reaching the outer handlers. -/
inductive BodyOutcome where
  | ret (success : Bool) (msg : String) (st : AuthState)
  | raised (e : PyErr) (st : AuthState)
deriving DecidableEq

/-- `self.creds and hasattr(self.creds, 'valid') and self.creds.valid`. -/
def credsValid (st : AuthState) : Bool :=
  match st.creds with
  | some c => c.valid
  | none => false

/-- The verification block (src/google_oauth.py lines 267-316) followed by the
final `return True` (lines 318-321): it runs only `if self.creds:`, changes no
success state, and either completes or lets an exception escape from inside
one of its own handlers. -/
def GoogleOAuth.authVerify (env : AuthEnv) (st : AuthState) : BodyOutcome :=
  match st.creds with
  | none => BodyOutcome.ret true "Autenticação realizada com sucesso!" st
  | some _ =>
    match env.verifyRaises with
    | some estr =>
      BodyOutcome.raised
        { typeName := "AttributeError", estr := estr, isFileNotFound := false,
          isPermission := false } st
    | none => BodyOutcome.ret true "Autenticação realizada com sucesso!" st

/-- The credential-saving step (src/google_oauth.py lines 246-265):
`_save_credentials` returns silently when `self.creds` is `None`, writes the
token file on success, and on failure raises a wrapped `Exception` that the
`try` at line 256 converts into an error return. -/
def GoogleOAuth.authSave (env : AuthEnv) (st : AuthState) : BodyOutcome :=
  match st.creds with
  | none => GoogleOAuth.authVerify env st
  | some _ =>
    if env.saveOk then GoogleOAuth.authVerify env { st with tokenOnDisk := true }
    else
      BodyOutcome.ret false
        "Erro ao salvar credenciais: Exception. Verifique permissões da pasta credentials/."
        st

/-- The interactive-flow branch (src/google_oauth.py lines 129-244): missing
`credentials.json` returns an error; otherwise the flow outcome is dispatched
through the handlers of lines 193-244 (` self.creds` is unchanged when the
flow raises, so the "credentials obtained anyway" checks consult the pre-flow
credentials). -/
def GoogleOAuth.authFlow (env : AuthEnv) (st : AuthState) : BodyOutcome :=
  if !env.credentialsFileExists then
    BodyOutcome.ret false
      ("Arquivo credentials.json não encontrado. Baixe as credenciais OAuth do Google Cloud Console e coloque em: "
        ++ env.credentialsFilePath) st
  else
    match env.flowOutcome with
    | FlowOutcome.obtained c => GoogleOAuth.authSave env { st with creds := some c }
    | FlowOutcome.cancelledInterrupt =>
      BodyOutcome.ret false "Autenticação cancelada pelo usuário" st
    | FlowOutcome.warningRaised w =>
      if pyContains "scope" (pyLower w) || pyContains "escopo" (pyLower w) then
        if credsValid st then GoogleOAuth.authSave env st
        else
          BodyOutcome.ret false
            ("Warning sobre escopo: " ++ pyTrunc 200 w ++
              "\n\nIsso pode acontecer se o Google adicionar escopos automaticamente. Tente novamente.")
            st
      else
        if credsValid st then GoogleOAuth.authSave env st
        else
          BodyOutcome.ret false ("Warning durante autenticação: " ++ pyTrunc 200 w) st
    | FlowOutcome.excRaised e =>
      let el := pyLower e.estr
      if pyContains "cancelled" el || pyContains "cancel" el || pyContains "closed" el ||
          pyContains "timeout" el || pyContains "timed out" el then
        BodyOutcome.ret false "Autenticação cancelada ou expirada. Tente novamente." st
      else if pyContains "connection" el || pyContains "server" el ||
          pyContains "refused" el then
        BodyOutcome.ret false ("Erro de conexão: " ++ e.typeName) st
      else if credsValid st then GoogleOAuth.authSave env st
      else BodyOutcome.ret false ("Erro na autenticação: " ++ e.typeName) st

/-- The `try` body of `_authenticate_internal` (src/google_oauth.py lines
118-321): load the persisted token when present, skip re-acquisition when the
credentials are already valid, otherwise refresh (raises propagate) or run the
interactive flow, save, then verify. -/
def GoogleOAuth.authBody (env : AuthEnv) : BodyOutcome :=
  let st0 : AuthState := { creds := none, tokenOnDisk := env.tokenExists0 }
  if env.tokenExists0 then
    match env.loadResult with
    | Except.error e => BodyOutcome.raised e st0
    | Except.ok c =>
      let st1 := { st0 with creds := some c }
      if c.valid then GoogleOAuth.authVerify env st1
      else if c.expired && c.hasRefreshToken then
        match env.refreshResult with
        | Except.error e => BodyOutcome.raised e st1
        | Except.ok c2 => GoogleOAuth.authSave env { st1 with creds := some c2 }
      else GoogleOAuth.authFlow env st1
  else GoogleOAuth.authFlow env st0

/-- The outer exception handlers of `_authenticate_internal`
(src/google_oauth.py lines 323-370): dedicated `FileNotFoundError` /
`PermissionError` clauses, then the generic handler whose first check is
`if self.token_file.exists(): return True` (lines 343-345). -/
def GoogleOAuth.authHandleTop (env : AuthEnv) (e : PyErr) (st : AuthState) :
    Bool × String :=
  if e.isFileNotFound then
    (false, "Arquivo credentials.json não encontrado em: " ++ env.credentialsFilePath)
  else if e.isPermission then
    (false, "Sem permissão para acessar: " ++ env.credentialsFilePath)
  else if st.tokenOnDisk then
    (true, "Autenticação realizada com sucesso!")
  else if credsValid st then
    if env.saveRetryOk then (true, "Autenticação realizada com sucesso!")
    else
      (false,
       "Erro ao salvar credenciais: Exception. Verifique permissões da pasta credentials/.")
  else if pyContains "Warning" e.typeName || pyContains "warning" (pyLower e.estr) then
    (false,
     "Warning durante autenticação: " ++ pyTrunc 200 e.estr ++
       "\n\nVerifique o arquivo de log para mais detalhes:\n" ++ env.logFilePath)
  else if pyContains "credentials" (pyLower e.estr) || pyContains "token" (pyLower e.estr) then
    (false,
     "Erro na autenticação: " ++ e.typeName ++ ".\n\nVerifique o arquivo credentials.json em:\n"
       ++ env.credentialsFilePath)
  else
    (false,
     "Erro na autenticação: " ++ e.typeName ++ "\n\nDetalhes: " ++ pyTrunc 200 e.estr ++
       "\n\nVerifique o arquivo de log para mais informações.")

/-- `GoogleOAuth._authenticate_internal` (hence `GoogleOAuth.authenticate`,
which only wraps it in a warning filter): run the body; an escaping exception
goes to the outer handlers. -/
def GoogleOAuth.authenticate (env : AuthEnv) : Bool × String :=
  match GoogleOAuth.authBody env with
  | BodyOutcome.ret success msg _ => (success, msg)
  | BodyOutcome.raised e st => GoogleOAuth.authHandleTop env e st

/-! ### Auxiliary definitions used by the theorems below -/

/-- Concrete authentication run: no prior token, interactive grant succeeds,
credentials are persisted, then the email-verification step raises. -/
def c9Env : AuthEnv :=
  { tokenExists0 := false,
    loadResult := Except.error { typeName := "FileNotFoundError", estr := "x", isFileNotFound := true, isPermission := false },
    refreshResult := Except.error { typeName := "RefreshError", estr := "r", isFileNotFound := false, isPermission := false },
    credentialsFileExists := true,
    credentialsFilePath := "credentials/credentials.json",
    logFilePath := "amatools.log",
    flowOutcome := FlowOutcome.obtained { valid := true, expired := false, hasRefreshToken := true },
    saveOk := true, saveRetryOk := true, verifyRaises := some "resp" }

/-- A default recipient (used only with `List.getD` under an index bound). -/
def defaultRecipient : Recipient := { fields := [] }

/-- Recognizer for the pacing-delay sleep event. -/
def isPacingSleepEv : BatchEv → Bool
  | BatchEv.pacingSleep _ => true
  | _ => false

/-- Recognizer for the credential-refresh event of `send_email`. -/
def isRefreshEv : SendEv → Bool
  | SendEv.refreshAuth _ => true
  | _ => false

/-- Recognizer for the API send-attempt event of `send_email`. -/
def isApiSendEv : SendEv → Bool
  | SendEv.apiSend => true
  | _ => false

/-- A string (as `List Char`) without brace characters. -/
def bracesFree (s : List Char) : Prop := ∀ c ∈ s, c ≠ lbChar ∧ c ≠ rbChar

/-- The lower-case key `col` of the round-trip property. -/
def colKey : List Char := ['c', 'o', 'l']

/-- The string `full name` of the malformed-placeholder property. -/
def fullNameChars : List Char := ['f', 'u', 'l', 'l', ' ', 'n', 'a', 'm', 'e']

/-- Whether the Gmail iteration for `r` invokes the template renderer. -/
def GmailSender.reachesRender (env : GBatchEnv) (r : Recipient) : Bool :=
  match GmailSender.stageOf env r with
  | GStage.renderFailed _ => true
  | GStage.sendDone _ => true
  | _ => false

/-- Whether the SMTP iteration for `r` invokes the template renderer. -/
def EmailSender.reachesRender (env : SBatchEnv) (r : Recipient) : Bool :=
  match EmailSender.stageOf env r with
  | SStage.renderFailed _ => true
  | SStage.sendDone _ => true
  | _ => false

/-- The detail entry recorded for a recipient with an empty address
(Gmail loop, src/gmail_sender.py lines 279-285). -/
def gmailMissingDetail : GDetail :=
  { email := "", status := "erro", mensagem := "Email não fornecido",
    gmail_message_id := none, gmail_thread_id := none, message_id := none,
    headers := [], attachments_hashes := [], raw_hash := none,
    history_id := none, rawOpt := none }

/-- The detail entry recorded for a recipient with an empty address
(SMTP loop, src/email_sender.py lines 242-248). -/
def smtpMissingDetail : SDetail :=
  { email := "", status := "erro", mensagem := "Email não fornecido",
    gmail_message_id := none, gmail_thread_id := none, message_id := none,
    headers := [] }

/-- A `SendEnv` whose every attempt raises a generic exception (used by
concrete batch scenarios where the send outcome is irrelevant or failing). -/
def failSendEnv : SendEnv :=
  { authenticated := false, serviceOk := Except.ok (), localHeaders := [],
    rawB64 := "", attemptResult := fun _ => ApiAttemptResult.otherExc "e",
    refreshOk := false }

/-- Concrete Gmail batch environment of the pacing-delay scenario: renderer
always succeeds, the send itself fails fast (unauthenticated), no stop
request. -/
def c5GEnv : GBatchEnv :=
  { render := fun _ => Except.ok "body", sendEnvOf := fun _ => failSendEnv,
    attachments := none, hashFile := fun _ => none, pathName := fun p => p,
    hashRawB64 := fun _ => none, stop := fun _ => false }

/-- Two recipients, the first with no `email` key, the second valid. -/
def c5Recips : List Recipient :=
  [{ fields := [] }, { fields := [("email", "a@b.co")] }]

/-- Concrete SMTP batch environment of the pacing-delay scenario. -/
def c5SEnv : SBatchEnv :=
  { render := fun _ => Except.ok "body",
    send := fun _ => SmtpSendRes.failed "x", stop := fun _ => false }

/-- An `HttpErrData` reporting an expired grant (status 401). -/
def authErr401 : HttpErrData :=
  { status := some 401, reasonOpt := some "authError", estr := "x" }

/-- Concrete send environment where every attempt reports the 401 auth error
and the in-place refresh succeeds. -/
def c3Env : SendEnv :=
  { authenticated := true, serviceOk := Except.ok (), localHeaders := [],
    rawB64 := "", attemptResult := fun _ => ApiAttemptResult.httpErr authErr401,
    refreshOk := true }

/-- Success environment whose metadata fetch fails (the fallback path). -/
def c4FallbackEnv : SendEnv :=
  { authenticated := true, serviceOk := Except.ok (),
    localHeaders := [("Message-ID", "<local>")], rawB64 := "QQ==",
    attemptResult := fun _ => ApiAttemptResult.success
      { idOpt := some "mid", threadIdOpt := some "tid", historyIdOpt := some "hid" }
      none,
    refreshOk := false }

/-- One valid recipient for the metadata-fetch-success scenario. -/
def c4Recips : List Recipient := [{ fields := [("email", "a@b.co")] }]

/-- Like `c3Env` but the in-place credential refresh fails. -/
def c3FailEnv : SendEnv :=
  { authenticated := true, serviceOk := Except.ok (), localHeaders := [],
    rawB64 := "", attemptResult := fun _ => ApiAttemptResult.httpErr authErr401,
    refreshOk := false }

/-- Concrete send environment where every attempt is rate-limited. -/
def c6Env : SendEnv :=
  { authenticated := true, serviceOk := Except.ok (), localHeaders := [],
    rawB64 := "",
    attemptResult := fun _ => ApiAttemptResult.httpErr
      { status := none, reasonOpt := some "rateLimitExceeded", estr := "e" },
    refreshOk := false }

/-- Concrete Gmail batch environment whose sends all hit `c6Env` (always
rate-limited), with two valid recipients and no stop request. -/
def c6BEnv : GBatchEnv :=
  { render := fun _ => Except.ok "body", sendEnvOf := fun _ => c6Env,
    attachments := none, hashFile := fun _ => none, pathName := fun p => p,
    hashRawB64 := fun _ => none, stop := fun _ => false }

/-- Two syntactically valid recipients. -/
def c6Recips : List Recipient :=
  [{ fields := [("email", "a@b.co")] }, { fields := [("email", "c@d.co")] }]

/-- Concrete send environment of a first-attempt success whose follow-up
metadata fetch also succeeds (the primary success path). -/
def c4OkFetchEnv : SendEnv :=
  { authenticated := true, serviceOk := Except.ok (),
    localHeaders := [("Message-ID", "<local>")], rawB64 := "QQ==",
    attemptResult := fun _ => ApiAttemptResult.success
      { idOpt := some "mid", threadIdOpt := some "tid", historyIdOpt := some "hid" }
      (some [("Message-ID", "<srv>")]),
    refreshOk := false }

/-- Concrete Gmail batch environment around `c4OkFetchEnv`, with one
attachment whose hashing succeeds. -/
def c4GEnv : GBatchEnv :=
  { render := fun _ => Except.ok "body", sendEnvOf := fun _ => c4OkFetchEnv,
    attachments := some ["f.pdf"], hashFile := fun _ => some "deadbeef",
    pathName := fun p => p, hashRawB64 := fun _ => some "rawhash",
    stop := fun _ => false }

/-- C1 (code_bug): the keyword arguments `attachments_hashes`, `raw_message`
and `history_id` that `BatchController.run` passes to
`Comprovacao.register_email` name no parameter of `register_email`, so (for
both the success-branch and the error-branch call) the very first
`register_email` call raises `TypeError`, aborting the recording of every
outcome — e.g. on the single successful outcome driven by the repo's own
`test_run_with_mock_sender`, zero outcomes are recorded and `finalize` is
never reached. -/
theorem c1_register_email_call_type_error :
    unexpectedKwargs registerEmailParamNames runSuccessCallKwargNames =
      ["attachments_hashes", "raw_message", "history_id"] ∧
    unexpectedKwargs registerEmailParamNames runErrorCallKwargNames =
      ["attachments_hashes", "raw_message", "history_id"] ∧
    BatchController.runRecordPhase [true] =
      Except.error "TypeError: register_email() got an unexpected keyword argument" ∧
    BatchController.runRecordPhase [false] =
      Except.error "TypeError: register_email() got an unexpected keyword argument" ∧
    BatchController.runRecordPhase [true, false, true] =
      Except.error "TypeError: register_email() got an unexpected keyword argument" := by
  exact ⟨rfl, rfl, rfl, rfl, rfl⟩

/-- Registering never touches the summary file and grows the ledger and the
`enviados + erros` sum in lockstep. -/
theorem comp_register_fold_invariant (regs : List RegArgs) :
    ∀ st : CompState,
      (Comprovacao.runOps st (regs.map CompOp.register)).resumo.emails.length =
        st.resumo.emails.length + regs.length ∧
      (Comprovacao.runOps st (regs.map CompOp.register)).resumo.enviados +
          (Comprovacao.runOps st (regs.map CompOp.register)).resumo.erros =
        st.resumo.enviados + st.resumo.erros + regs.length ∧
      (Comprovacao.runOps st (regs.map CompOp.register)).summaryFileOnDisk =
        st.summaryFileOnDisk ∧
      (Comprovacao.runOps st (regs.map CompOp.register)).summaryWrites =
        st.summaryWrites := by
  induction regs with
  | nil => intro st; simp [Comprovacao.runOps]
  | cons a rest ih =>
    intro st
    have h := ih (Comprovacao.register_email a st)
    simp only [List.map_cons, Comprovacao.runOps, List.foldl_cons] at h ⊢
    refine ⟨?_, ?_, ?_, ?_⟩
    · rw [show Comprovacao.applyOp st (CompOp.register a) = Comprovacao.register_email a st from rfl]
      rw [h.1]
      by_cases hs : a.status = "enviado" <;>
        simp [Comprovacao.register_email, hs] <;> omega
    · rw [show Comprovacao.applyOp st (CompOp.register a) = Comprovacao.register_email a st from rfl]
      rw [h.2.1]
      by_cases hs : a.status = "enviado" <;>
        simp [Comprovacao.register_email, hs] <;> omega
    · rw [show Comprovacao.applyOp st (CompOp.register a) = Comprovacao.register_email a st from rfl]
      rw [h.2.2.1]
      by_cases hs : a.status = "enviado" <;>
        simp [Comprovacao.register_email, hs]
    · rw [show Comprovacao.applyOp st (CompOp.register a) = Comprovacao.register_email a st from rfl]
      rw [h.2.2.2]
      by_cases hs : a.status = "enviado" <;>
        simp [Comprovacao.register_email, hs]

/-- C2: after any sequence of `register_email` calls followed by one
`finalize()` whose write succeeds, the written `resumo.json` satisfies
`total = |emails| = enviados + erros = number of registered outcomes`; the
summary is written exactly once, and only by the `finalize` (zero writes
before it); and any further `register_email` calls leave the already-written
file (and the write count) unchanged. -/
theorem c2_summary_written_once_and_consistent (name : String) (t0 tf : Nat)
    (regs more : List RegArgs) :
    ∃ r : Resumo,
      (Comprovacao.runOps (Comprovacao.init name t0)
          (regs.map CompOp.register ++ [CompOp.finalize tf true])).summaryFileOnDisk
        = some r ∧
      r.total = r.emails.length ∧ r.total = regs.length ∧
      r.total = r.enviados + r.erros ∧
      (Comprovacao.runOps (Comprovacao.init name t0)
          (regs.map CompOp.register ++ [CompOp.finalize tf true])).summaryWrites = 1 ∧
      (Comprovacao.runOps (Comprovacao.init name t0)
          (regs.map CompOp.register)).summaryWrites = 0 ∧
      (Comprovacao.runOps
          (Comprovacao.runOps (Comprovacao.init name t0)
            (regs.map CompOp.register ++ [CompOp.finalize tf true]))
          (more.map CompOp.register)).summaryFileOnDisk = some r ∧
      (Comprovacao.runOps
          (Comprovacao.runOps (Comprovacao.init name t0)
            (regs.map CompOp.register ++ [CompOp.finalize tf true]))
          (more.map CompOp.register)).summaryWrites = 1 := by
  have hinv := comp_register_fold_invariant regs (Comprovacao.init name t0)
  have hsplit :
      Comprovacao.runOps (Comprovacao.init name t0)
          (regs.map CompOp.register ++ [CompOp.finalize tf true]) =
        Comprovacao.applyOp
          (Comprovacao.runOps (Comprovacao.init name t0) (regs.map CompOp.register))
          (CompOp.finalize tf true) := by
    simp [Comprovacao.runOps, List.foldl_append]
  set st1 := Comprovacao.runOps (Comprovacao.init name t0) (regs.map CompOp.register) with hst1
  set r : Resumo := { st1.resumo with timestamp_fim := some tf, total := st1.resumo.emails.length } with hr
  have hfin : Comprovacao.applyOp st1 (CompOp.finalize tf true) = { resumo := r, summaryFileOnDisk := some r, summaryWrites := st1.summaryWrites + 1 } := by
    simp [Comprovacao.applyOp, Comprovacao.finalize, hr]
  have hinv1 := hinv.1
  have hinv2 := hinv.2.1
  have hinv3 := hinv.2.2.2
  simp [Comprovacao.init] at hinv1 hinv2 hinv3
  have hmore := comp_register_fold_invariant more
    (Comprovacao.applyOp st1 (CompOp.finalize tf true))
  refine ⟨r, ?_, ?_, ?_, ?_, ?_, ?_, ?_, ?_⟩
  · rw [hsplit, hfin]
  · simp [hr]
  · simp [hr, hinv1]
  · simp [hr, hinv1, hinv2]
  · rw [hsplit, hfin]; simp [hinv3]
  · exact hinv3
  · rw [hsplit]; rw [hmore.2.2.1, hfin]
  · rw [hsplit]; rw [hmore.2.2.2, hfin]; simp [hinv3]

/-- Every Gmail detail entry's status is `enviado` or `erro`. -/
theorem gmail_detail_status_cases (env : GBatchEnv) (r : Recipient) :
    (GmailSender.detailOf env r).status = "enviado" ∨
      (GmailSender.detailOf env r).status = "erro" := by
  cases h : GmailSender.stageOf env r with
  | missingEmail => simp [GmailSender.detailOf, h]
  | invalidEmail m => simp [GmailSender.detailOf, h]
  | renderFailed e => simp [GmailSender.detailOf, h]
  | sendDone res =>
    cases res with
    | sent m => simp [GmailSender.detailOf, h]
    | failed msg => simp [GmailSender.detailOf, h]

/-- Every SMTP detail entry's status is `enviado` or `erro`. -/
theorem smtp_detail_status_cases (env : SBatchEnv) (r : Recipient) :
    (EmailSender.detailOf env r).status = "enviado" ∨
      (EmailSender.detailOf env r).status = "erro" := by
  cases h : EmailSender.stageOf env r with
  | missingEmail => simp [EmailSender.detailOf, h]
  | renderFailed e => simp [EmailSender.detailOf, h]
  | sendDone res =>
    cases res with
    | sent mid hs => simp [EmailSender.detailOf, h]
    | failed msg => simp [EmailSender.detailOf, h]

/-- Loop invariant of the Gmail batch loop: the counters sum to the number of
detail entries and every status is `enviado`/`erro`. -/
theorem gmail_go_stats (env : GBatchEnv) (total : Nat) :
    ∀ (recips : List Recipient) (idx : Nat),
      (GmailSender.sendGoBatch env total recips idx).1 +
          (GmailSender.sendGoBatch env total recips idx).2.1 =
        (GmailSender.sendGoBatch env total recips idx).2.2.1.length ∧
      ∀ d ∈ (GmailSender.sendGoBatch env total recips idx).2.2.1,
        d.status = "enviado" ∨ d.status = "erro" := by
  intro recips
  induction recips with
  | nil => intro idx; simp [GmailSender.sendGoBatch]
  | cons r rest ih =>
    intro idx
    by_cases hstop : env.stop (idx - 1)
    · simp [GmailSender.sendGoBatch, hstop]
    · have h := ih (idx + 1)
      constructor
      · rcases gmail_detail_status_cases env r with hs | hs <;>
          simp [GmailSender.sendGoBatch, hstop, hs] <;> omega
      · intro d hd
        simp only [GmailSender.sendGoBatch, hstop, if_false, Bool.false_eq_true,
          List.mem_cons] at hd
        rcases hd with hd | hd
        · subst hd; exact gmail_detail_status_cases env r
        · exact h.2 d hd

/-- Loop invariant of the SMTP batch loop. -/
theorem smtp_go_stats (env : SBatchEnv) (total : Nat) :
    ∀ (recips : List Recipient) (idx : Nat),
      (EmailSender.sendGoBatch env total recips idx).1 +
          (EmailSender.sendGoBatch env total recips idx).2.1 =
        (EmailSender.sendGoBatch env total recips idx).2.2.1.length ∧
      ∀ d ∈ (EmailSender.sendGoBatch env total recips idx).2.2.1,
        d.status = "enviado" ∨ d.status = "erro" := by
  intro recips
  induction recips with
  | nil => intro idx; simp [EmailSender.sendGoBatch]
  | cons r rest ih =>
    intro idx
    by_cases hstop : env.stop (idx - 1)
    · simp [EmailSender.sendGoBatch, hstop]
    · have h := ih (idx + 1)
      constructor
      · rcases smtp_detail_status_cases env r with hs | hs <;>
          simp [EmailSender.sendGoBatch, hstop, hs] <;> omega
      · intro d hd
        simp only [EmailSender.sendGoBatch, hstop, if_false, Bool.false_eq_true,
          List.mem_cons] at hd
        rcases hd with hd | hd
        · subst hd; exact smtp_detail_status_cases env r
        · exact h.2 d hd

/-- C10: for both transports the returned statistics satisfy
`enviados + erros = |detalhes|`, every detail status is `enviado` or `erro`,
and `total` is the full input length, for every environment (in particular for
every stop-flag behaviour, where `detalhes` may be shorter than `total`). -/
theorem c10_batch_stats_invariants (genv : GBatchEnv) (senv : SBatchEnv)
    (recips recipsS : List Recipient) :
    ((GmailSender.send_batch genv recips).1.enviados +
        (GmailSender.send_batch genv recips).1.erros =
      (GmailSender.send_batch genv recips).1.detalhes.length) ∧
    (∀ d ∈ (GmailSender.send_batch genv recips).1.detalhes,
      d.status = "enviado" ∨ d.status = "erro") ∧
    (GmailSender.send_batch genv recips).1.total = recips.length ∧
    ((EmailSender.send_batch senv recipsS).1.enviados +
        (EmailSender.send_batch senv recipsS).1.erros =
      (EmailSender.send_batch senv recipsS).1.detalhes.length) ∧
    (∀ d ∈ (EmailSender.send_batch senv recipsS).1.detalhes,
      d.status = "enviado" ∨ d.status = "erro") ∧
    (EmailSender.send_batch senv recipsS).1.total = recipsS.length := by
  have hg := gmail_go_stats genv recips.length recips 1
  have hs := smtp_go_stats senv recipsS.length recipsS 1
  exact ⟨hg.1, hg.2, rfl, hs.1, hs.2, rfl⟩

/-- Sleep events inside one Gmail iteration's trace: there is one exactly when
the iteration reached the send stage and `idx < total`. -/
theorem gmail_traceOf_sleep_mem (env : GBatchEnv) (total idx t : Nat) (r : Recipient) :
    BatchEv.pacingSleep t ∈ GmailSender.traceOf env total idx r ↔
      t = idx ∧ idx < total ∧ GmailSender.reachesSend env r = true := by
  cases h : GmailSender.stageOf env r with
  | missingEmail => simp [GmailSender.traceOf, h, GmailSender.reachesSend]
  | invalidEmail m => simp [GmailSender.traceOf, h, GmailSender.reachesSend]
  | renderFailed e => simp [GmailSender.traceOf, h, GmailSender.reachesSend]
  | sendDone res =>
    by_cases hlt : idx < total <;>
      simp [GmailSender.traceOf, h, GmailSender.reachesSend, hlt]

/-- Placement of the pacing sleeps in a full Gmail batch run, for an arbitrary
stop flag: the sleep for 1-based index `t` happens iff the first `t` stop
checks all returned false (the flag is read only at iteration starts, so a
flag that turns true after recipient `t` does not suppress recipient `t`'s
sleep), the iteration reached the send stage, and `t` is not the last input
index. -/
theorem gmail_go_sleep_mem (env : GBatchEnv) (total : Nat) :
    ∀ (recips : List Recipient) (idx t : Nat), 1 ≤ idx →
      (BatchEv.pacingSleep t ∈ (GmailSender.sendGoBatch env total recips idx).2.2.2 ↔
        (idx ≤ t ∧ t < idx + recips.length ∧ t < total ∧
          (∀ m, idx - 1 ≤ m → m ≤ t - 1 → env.stop m = false) ∧
          GmailSender.reachesSend env (recips.getD (t - idx) defaultRecipient) = true)) := by
  intro recips
  induction recips with
  | nil =>
    intro idx t hidx
    simp [GmailSender.sendGoBatch]
    omega
  | cons r rest ih =>
    intro idx t hidx
    by_cases hstop : env.stop (idx - 1)
    · simp only [GmailSender.sendGoBatch, hstop, if_true]
      simp only [List.mem_singleton]
      constructor
      · intro h; cases h
      · rintro ⟨h1, h2, h3, h4, h5⟩
        have := h4 (idx - 1) (le_refl _) (by omega)
        rw [this] at hstop
        cases hstop
    · simp only [GmailSender.sendGoBatch, hstop, Bool.false_eq_true, if_false,
        List.mem_append]
      rw [gmail_traceOf_sleep_mem, ih (idx + 1) t (by omega)]
      constructor
      · rintro (⟨ht, hlt, hr⟩ | ⟨h1, h2, h3, h4, h5⟩)
        · subst ht
          refine ⟨le_refl _, by simp only [List.length_cons]; omega, hlt, ?_, ?_⟩
          · intro m hm1 hm2
            have : m = t - 1 := by omega
            subst this
            simpa using hstop
          · simpa using hr
        · refine ⟨by omega, by simp only [List.length_cons]; omega, h3, ?_, ?_⟩
          · intro m hm1 hm2
            by_cases hme : m = idx - 1
            · subst hme; simpa using hstop
            · exact h4 m (by omega) hm2
          · have : t - idx = (t - (idx + 1)) + 1 := by omega
            rw [this]
            simpa using h5
      · rintro ⟨h1, h2, h3, h4, h5⟩
        by_cases ht : t = idx
        · subst ht
          left
          refine ⟨rfl, h3, ?_⟩
          simpa using h5
        · right
          refine ⟨by omega, by simp only [List.length_cons] at h2 ⊢; omega, h3, ?_, ?_⟩
          · intro m hm1 hm2
            exact h4 m (by omega) hm2
          · have : t - idx = (t - (idx + 1)) + 1 := by omega
            rw [this] at h5
            simpa using h5

/-- Sleep events inside one SMTP iteration's trace. -/
theorem smtp_traceOf_sleep_mem (env : SBatchEnv) (total idx t : Nat) (r : Recipient) :
    BatchEv.pacingSleep t ∈ EmailSender.traceOf env total idx r ↔
      t = idx ∧ idx < total ∧ EmailSender.reachesSend env r = true := by
  cases h : EmailSender.stageOf env r with
  | missingEmail => simp [EmailSender.traceOf, h, EmailSender.reachesSend]
  | renderFailed e => simp [EmailSender.traceOf, h, EmailSender.reachesSend]
  | sendDone res =>
    by_cases hlt : idx < total <;>
      simp [EmailSender.traceOf, h, EmailSender.reachesSend, hlt]

/-- Placement of the pacing sleeps in a full SMTP batch run (same shape as the
Gmail lemma). -/
theorem smtp_go_sleep_mem (env : SBatchEnv) (total : Nat) :
    ∀ (recips : List Recipient) (idx t : Nat), 1 ≤ idx →
      (BatchEv.pacingSleep t ∈ (EmailSender.sendGoBatch env total recips idx).2.2.2 ↔
        (idx ≤ t ∧ t < idx + recips.length ∧ t < total ∧
          (∀ m, idx - 1 ≤ m → m ≤ t - 1 → env.stop m = false) ∧
          EmailSender.reachesSend env (recips.getD (t - idx) defaultRecipient) = true)) := by
  intro recips
  induction recips with
  | nil =>
    intro idx t hidx
    simp [EmailSender.sendGoBatch]
    omega
  | cons r rest ih =>
    intro idx t hidx
    by_cases hstop : env.stop (idx - 1)
    · simp only [EmailSender.sendGoBatch, hstop, if_true]
      simp only [List.mem_singleton]
      constructor
      · intro h; cases h
      · rintro ⟨h1, h2, h3, h4, h5⟩
        have := h4 (idx - 1) (le_refl _) (by omega)
        rw [this] at hstop
        cases hstop
    · simp only [EmailSender.sendGoBatch, hstop, Bool.false_eq_true, if_false,
        List.mem_append]
      rw [smtp_traceOf_sleep_mem, ih (idx + 1) t (by omega)]
      constructor
      · rintro (⟨ht, hlt, hr⟩ | ⟨h1, h2, h3, h4, h5⟩)
        · subst ht
          refine ⟨le_refl _, by simp only [List.length_cons]; omega, hlt, ?_, ?_⟩
          · intro m hm1 hm2
            have : m = t - 1 := by omega
            subst this
            simpa using hstop
          · simpa using hr
        · refine ⟨by omega, by simp only [List.length_cons]; omega, h3, ?_, ?_⟩
          · intro m hm1 hm2
            by_cases hme : m = idx - 1
            · subst hme; simpa using hstop
            · exact h4 m (by omega) hm2
          · have : t - idx = (t - (idx + 1)) + 1 := by omega
            rw [this]
            simpa using h5
      · rintro ⟨h1, h2, h3, h4, h5⟩
        by_cases ht : t = idx
        · subst ht
          left
          refine ⟨rfl, h3, ?_⟩
          simpa using h5
        · right
          refine ⟨by omega, by simp only [List.length_cons] at h2 ⊢; omega, h3, ?_, ?_⟩
          · intro m hm1 hm2
            exact h4 m (by omega) hm2
          · have : t - idx = (t - (idx + 1)) + 1 := by omega
            rw [this] at h5
            simpa using h5

/-- C5 (counterexample): in a two-recipient batch whose first recipient has an
empty address, both transports record both outcomes but execute no pacing
sleep at all — the claim demands a delay after every recipient except the
last, i.e. one sleep here.  (The `continue` branches for missing/invalid
address and render failure jump past the delay.) -/
theorem c5_counterexample :
    c5Recips.length = 2 ∧
    (GmailSender.send_batch c5GEnv c5Recips).1.detalhes.length = 2 ∧
    ((GmailSender.send_batch c5GEnv c5Recips).2.filter isPacingSleepEv).length = 0 ∧
    (EmailSender.send_batch c5SEnv c5Recips).1.detalhes.length = 2 ∧
    ((EmailSender.send_batch c5SEnv c5Recips).2.filter isPacingSleepEv).length = 0 := by
  decide

/-- C5 (amended): for both transports, the pacing delay runs after exactly
those recipients that (i) are processed at all (every stop-flag reading up to
and including theirs returned false — the flag is read only at iteration
starts, so a stop signal arriving during or right after a recipient does not
skip that recipient's delay), (ii) reach the transport-send stage (recipients
skipped for a missing/invalid address or a render failure get no delay), and
(iii) are not the last recipient of the full input list. -/
theorem c5_amended_delay_placement (genv : GBatchEnv) (senv : SBatchEnv)
    (recips recipsS : List Recipient) (t tS : Nat) :
    (BatchEv.pacingSleep t ∈ (GmailSender.send_batch genv recips).2 ↔
      (1 ≤ t ∧ t < recips.length ∧ (∀ m, m < t → genv.stop m = false) ∧
        GmailSender.reachesSend genv (recips.getD (t - 1) defaultRecipient) = true)) ∧
    (BatchEv.pacingSleep tS ∈ (EmailSender.send_batch senv recipsS).2 ↔
      (1 ≤ tS ∧ tS < recipsS.length ∧ (∀ m, m < tS → senv.stop m = false) ∧
        EmailSender.reachesSend senv (recipsS.getD (tS - 1) defaultRecipient) = true)) := by
  constructor
  · rw [show (GmailSender.send_batch genv recips).2 =
        (GmailSender.sendGoBatch genv recips.length recips 1).2.2.2 from rfl,
      gmail_go_sleep_mem genv recips.length recips 1 t (le_refl 1)]
    constructor
    · rintro ⟨h1, h2, h3, h4, h5⟩
      exact ⟨h1, by omega, fun m hm => h4 m (by omega) (by omega), h5⟩
    · rintro ⟨h1, h2, h3, h4⟩
      exact ⟨h1, by omega, by omega, fun m hm1 hm2 => h3 m (by omega), h4⟩
  · rw [show (EmailSender.send_batch senv recipsS).2 =
        (EmailSender.sendGoBatch senv recipsS.length recipsS 1).2.2.2 from rfl,
      smtp_go_sleep_mem senv recipsS.length recipsS 1 tS (le_refl 1)]
    constructor
    · rintro ⟨h1, h2, h3, h4, h5⟩
      exact ⟨h1, by omega, fun m hm => h4 m (by omega) (by omega), h5⟩
    · rintro ⟨h1, h2, h3, h4⟩
      exact ⟨h1, by omega, by omega, fun m hm1 hm2 => h3 m (by omega), h4⟩

/-- Render-call events inside one Gmail iteration's trace. -/
theorem gmail_traceOf_render_mem (env : GBatchEnv) (total idx t : Nat) (r : Recipient) :
    BatchEv.renderCall t ∈ GmailSender.traceOf env total idx r ↔
      t = idx ∧ GmailSender.reachesRender env r = true := by
  cases h : GmailSender.stageOf env r with
  | missingEmail => simp [GmailSender.traceOf, h, GmailSender.reachesRender]
  | invalidEmail m => simp [GmailSender.traceOf, h, GmailSender.reachesRender]
  | renderFailed e => simp [GmailSender.traceOf, h, GmailSender.reachesRender]
  | sendDone res =>
    by_cases hlt : idx < total <;>
      simp [GmailSender.traceOf, h, GmailSender.reachesRender, hlt]

/-- Send-call events inside one Gmail iteration's trace. -/
theorem gmail_traceOf_send_mem (env : GBatchEnv) (total idx t : Nat) (r : Recipient) :
    BatchEv.sendCall t ∈ GmailSender.traceOf env total idx r ↔
      t = idx ∧ GmailSender.reachesSend env r = true := by
  cases h : GmailSender.stageOf env r with
  | missingEmail => simp [GmailSender.traceOf, h, GmailSender.reachesSend]
  | invalidEmail m => simp [GmailSender.traceOf, h, GmailSender.reachesSend]
  | renderFailed e => simp [GmailSender.traceOf, h, GmailSender.reachesSend]
  | sendDone res =>
    by_cases hlt : idx < total <;>
      simp [GmailSender.traceOf, h, GmailSender.reachesSend, hlt]

/-- With the stop flag never set, the Gmail loop records exactly one detail
per recipient — the per-recipient `detailOf`, independent of the surrounding
batch — and the render / send calls it makes are characterized per index. -/
theorem gmail_go_nostop (env : GBatchEnv) (total : Nat)
    (hstop : ∀ n, env.stop n = false) :
    ∀ (recips : List Recipient) (idx : Nat),
      (GmailSender.sendGoBatch env total recips idx).2.2.1 =
        recips.map (GmailSender.detailOf env) ∧
      (∀ t, BatchEv.renderCall t ∈ (GmailSender.sendGoBatch env total recips idx).2.2.2 ↔
        (idx ≤ t ∧ t < idx + recips.length ∧
          GmailSender.reachesRender env (recips.getD (t - idx) defaultRecipient) = true)) ∧
      (∀ t, BatchEv.sendCall t ∈ (GmailSender.sendGoBatch env total recips idx).2.2.2 ↔
        (idx ≤ t ∧ t < idx + recips.length ∧
          GmailSender.reachesSend env (recips.getD (t - idx) defaultRecipient) = true)) := by
  intro recips
  induction recips with
  | nil =>
    intro idx
    refine ⟨by simp [GmailSender.sendGoBatch], ?_, ?_⟩ <;>
      intro t <;> simp [GmailSender.sendGoBatch] <;> omega
  | cons r rest ih =>
    intro idx
    have h := ih (idx + 1)
    simp only [GmailSender.sendGoBatch, hstop (idx - 1), Bool.false_eq_true, if_false]
    refine ⟨by simp [h.1], ?_, ?_⟩
    · intro t
      simp only [List.mem_append, gmail_traceOf_render_mem, h.2.1 t]
      constructor
      · rintro (⟨ht, hr⟩ | ⟨h1, h2, h3⟩)
        · subst ht
          refine ⟨le_refl _, by simp only [List.length_cons]; omega, ?_⟩
          simpa using hr
        · refine ⟨by omega, by simp only [List.length_cons]; omega, ?_⟩
          have : t - idx = (t - (idx + 1)) + 1 := by omega
          rw [this]
          simpa using h3
      · rintro ⟨h1, h2, h3⟩
        by_cases ht : t = idx
        · subst ht
          left
          exact ⟨rfl, by simpa using h3⟩
        · right
          refine ⟨by omega, by simp only [List.length_cons] at h2 ⊢; omega, ?_⟩
          have : t - idx = (t - (idx + 1)) + 1 := by omega
          rw [this] at h3
          simpa using h3
    · intro t
      simp only [List.mem_append, gmail_traceOf_send_mem, h.2.2 t]
      constructor
      · rintro (⟨ht, hr⟩ | ⟨h1, h2, h3⟩)
        · subst ht
          refine ⟨le_refl _, by simp only [List.length_cons]; omega, ?_⟩
          simpa using hr
        · refine ⟨by omega, by simp only [List.length_cons]; omega, ?_⟩
          have : t - idx = (t - (idx + 1)) + 1 := by omega
          rw [this]
          simpa using h3
      · rintro ⟨h1, h2, h3⟩
        by_cases ht : t = idx
        · subst ht
          left
          exact ⟨rfl, by simpa using h3⟩
        · right
          refine ⟨by omega, by simp only [List.length_cons] at h2 ⊢; omega, ?_⟩
          have : t - idx = (t - (idx + 1)) + 1 := by omega
          rw [this] at h3
          simpa using h3

/-- Render-call events inside one SMTP iteration's trace. -/
theorem smtp_traceOf_render_mem (env : SBatchEnv) (total idx t : Nat) (r : Recipient) :
    BatchEv.renderCall t ∈ EmailSender.traceOf env total idx r ↔
      t = idx ∧ EmailSender.reachesRender env r = true := by
  cases h : EmailSender.stageOf env r with
  | missingEmail => simp [EmailSender.traceOf, h, EmailSender.reachesRender]
  | renderFailed e => simp [EmailSender.traceOf, h, EmailSender.reachesRender]
  | sendDone res =>
    by_cases hlt : idx < total <;>
      simp [EmailSender.traceOf, h, EmailSender.reachesRender, hlt]

/-- Send-call events inside one SMTP iteration's trace. -/
theorem smtp_traceOf_send_mem (env : SBatchEnv) (total idx t : Nat) (r : Recipient) :
    BatchEv.sendCall t ∈ EmailSender.traceOf env total idx r ↔
      t = idx ∧ EmailSender.reachesSend env r = true := by
  cases h : EmailSender.stageOf env r with
  | missingEmail => simp [EmailSender.traceOf, h, EmailSender.reachesSend]
  | renderFailed e => simp [EmailSender.traceOf, h, EmailSender.reachesSend]
  | sendDone res =>
    by_cases hlt : idx < total <;>
      simp [EmailSender.traceOf, h, EmailSender.reachesSend, hlt]

/-- With the stop flag never set, the SMTP loop records one `detailOf` per
recipient, with render / send call events characterized per index. -/
theorem smtp_go_nostop (env : SBatchEnv) (total : Nat)
    (hstop : ∀ n, env.stop n = false) :
    ∀ (recips : List Recipient) (idx : Nat),
      (EmailSender.sendGoBatch env total recips idx).2.2.1 =
        recips.map (EmailSender.detailOf env) ∧
      (∀ t, BatchEv.renderCall t ∈ (EmailSender.sendGoBatch env total recips idx).2.2.2 ↔
        (idx ≤ t ∧ t < idx + recips.length ∧
          EmailSender.reachesRender env (recips.getD (t - idx) defaultRecipient) = true)) ∧
      (∀ t, BatchEv.sendCall t ∈ (EmailSender.sendGoBatch env total recips idx).2.2.2 ↔
        (idx ≤ t ∧ t < idx + recips.length ∧
          EmailSender.reachesSend env (recips.getD (t - idx) defaultRecipient) = true)) := by
  intro recips
  induction recips with
  | nil =>
    intro idx
    refine ⟨by simp [EmailSender.sendGoBatch], ?_, ?_⟩ <;>
      intro t <;> simp [EmailSender.sendGoBatch] <;> omega
  | cons r rest ih =>
    intro idx
    have h := ih (idx + 1)
    simp only [EmailSender.sendGoBatch, hstop (idx - 1), Bool.false_eq_true, if_false]
    refine ⟨by simp [h.1], ?_, ?_⟩
    · intro t
      simp only [List.mem_append, smtp_traceOf_render_mem, h.2.1 t]
      constructor
      · rintro (⟨ht, hr⟩ | ⟨h1, h2, h3⟩)
        · subst ht
          refine ⟨le_refl _, by simp only [List.length_cons]; omega, ?_⟩
          simpa using hr
        · refine ⟨by omega, by simp only [List.length_cons]; omega, ?_⟩
          have : t - idx = (t - (idx + 1)) + 1 := by omega
          rw [this]
          simpa using h3
      · rintro ⟨h1, h2, h3⟩
        by_cases ht : t = idx
        · subst ht
          left
          exact ⟨rfl, by simpa using h3⟩
        · right
          refine ⟨by omega, by simp only [List.length_cons] at h2 ⊢; omega, ?_⟩
          have : t - idx = (t - (idx + 1)) + 1 := by omega
          rw [this] at h3
          simpa using h3
    · intro t
      simp only [List.mem_append, smtp_traceOf_send_mem, h.2.2 t]
      constructor
      · rintro (⟨ht, hr⟩ | ⟨h1, h2, h3⟩)
        · subst ht
          refine ⟨le_refl _, by simp only [List.length_cons]; omega, ?_⟩
          simpa using hr
        · refine ⟨by omega, by simp only [List.length_cons]; omega, ?_⟩
          have : t - idx = (t - (idx + 1)) + 1 := by omega
          rw [this]
          simpa using h3
      · rintro ⟨h1, h2, h3⟩
        by_cases ht : t = idx
        · subst ht
          left
          exact ⟨rfl, by simpa using h3⟩
        · right
          refine ⟨by omega, by simp only [List.length_cons] at h2 ⊢; omega, ?_⟩
          have : t - idx = (t - (idx + 1)) + 1 := by omega
          rw [this] at h3
          simpa using h3

/-- C7: in a no-stop run over any recipient list, a recipient at position `i`
with an empty `email` gets the failure detail with message
"Email não fornecido" (the spec's "missing address"), no render call and no
transport send call is made for it, and every position's detail — so in
particular every other recipient's — is the per-recipient `detailOf` of its
own record alone, for both transports. -/
theorem c7_missing_address_no_render_no_send (genv : GBatchEnv) (senv : SBatchEnv)
    (recips : List Recipient) (i : Nat)
    (hgstop : ∀ n, genv.stop n = false) (hsstop : ∀ n, senv.stop n = false)
    (hi : i < recips.length)
    (he : recipientEmail (recips.getD i defaultRecipient) = "") :
    (GmailSender.send_batch genv recips).1.detalhes.get? i = some gmailMissingDetail ∧
    BatchEv.renderCall (i + 1) ∉ (GmailSender.send_batch genv recips).2 ∧
    BatchEv.sendCall (i + 1) ∉ (GmailSender.send_batch genv recips).2 ∧
    (∀ j, (GmailSender.send_batch genv recips).1.detalhes.get? j =
      (recips.get? j).map (GmailSender.detailOf genv)) ∧
    (EmailSender.send_batch senv recips).1.detalhes.get? i = some smtpMissingDetail ∧
    BatchEv.renderCall (i + 1) ∉ (EmailSender.send_batch senv recips).2 ∧
    BatchEv.sendCall (i + 1) ∉ (EmailSender.send_batch senv recips).2 ∧
    (∀ j, (EmailSender.send_batch senv recips).1.detalhes.get? j =
      (recips.get? j).map (EmailSender.detailOf senv)) := by
  have hg := gmail_go_nostop genv recips.length hgstop recips 1
  have hs := smtp_go_nostop senv recips.length hsstop recips 1
  have hget : recips.get? i = some (recips.getD i defaultRecipient) := by
    simp [List.getD_eq_getElem?_getD, List.get?_eq_getElem?]
    rw [List.getElem?_eq_getElem hi]
    simp
  set r0 := recips.getD i defaultRecipient with hr0
  have hgstage : GmailSender.stageOf genv r0 = GStage.missingEmail := by
    simp [GmailSender.stageOf, he]
  have hsstage : EmailSender.stageOf senv r0 = SStage.missingEmail := by
    simp [EmailSender.stageOf, he]
  have hgdets : (GmailSender.send_batch genv recips).1.detalhes =
      recips.map (GmailSender.detailOf genv) := hg.1
  have hsdets : (EmailSender.send_batch senv recips).1.detalhes =
      recips.map (EmailSender.detailOf senv) := hs.1
  refine ⟨?_, ?_, ?_, ?_, ?_, ?_, ?_, ?_⟩
  · rw [hgdets, List.get?_map, hget]
    simp [GmailSender.detailOf, hgstage, he, gmailMissingDetail]
  · intro hmem
    rw [show (GmailSender.send_batch genv recips).2 =
        (GmailSender.sendGoBatch genv recips.length recips 1).2.2.2 from rfl,
      hg.2.1 (i + 1)] at hmem
    obtain ⟨-, -, h3⟩ := hmem
    rw [Nat.add_sub_cancel, ← hr0] at h3
    simp [GmailSender.reachesRender, hgstage] at h3
  · intro hmem
    rw [show (GmailSender.send_batch genv recips).2 =
        (GmailSender.sendGoBatch genv recips.length recips 1).2.2.2 from rfl,
      hg.2.2 (i + 1)] at hmem
    obtain ⟨-, -, h3⟩ := hmem
    rw [Nat.add_sub_cancel, ← hr0] at h3
    simp [GmailSender.reachesSend, hgstage] at h3
  · intro j
    rw [hgdets, List.get?_map]
  · rw [hsdets, List.get?_map, hget]
    simp [EmailSender.detailOf, hsstage, he, smtpMissingDetail]
  · intro hmem
    rw [show (EmailSender.send_batch senv recips).2 =
        (EmailSender.sendGoBatch senv recips.length recips 1).2.2.2 from rfl,
      hs.2.1 (i + 1)] at hmem
    obtain ⟨-, -, h3⟩ := hmem
    rw [Nat.add_sub_cancel, ← hr0] at h3
    simp [EmailSender.reachesRender, hsstage] at h3
  · intro hmem
    rw [show (EmailSender.send_batch senv recips).2 =
        (EmailSender.sendGoBatch senv recips.length recips 1).2.2.2 from rfl,
      hs.2.2 (i + 1)] at hmem
    obtain ⟨-, -, h3⟩ := hmem
    rw [Nat.add_sub_cancel, ← hr0] at h3
    simp [EmailSender.reachesSend, hsstage] at h3
  · intro j
    rw [hsdets, List.get?_map]

/-- A stage equal to `sendDone res` determines `res` as the `send_email`
result for that recipient's environment. -/
theorem gmail_stage_sendDone_val (env : GBatchEnv) (r : Recipient) (res : SendResult)
    (h : GmailSender.stageOf env r = GStage.sendDone res) :
    res = (GmailSender.send_email (env.sendEnvOf r)).1 := by
  simp only [GmailSender.stageOf] at h
  split at h
  · cases h
  · split at h
    · cases h
    · split at h
      · cases h
      · cases h; rfl

/-- C6: when every attempt of a provider send reports `rateLimitExceeded`
(and no auth classification applies), `send_email` performs exactly the fixed
bound of 3 attempts with a 5-second sleep between consecutive attempts and
fails with the rate-limit message ("Limite de taxa excedido: …", the spec's
"rate limit" category); and a batch whose recipients all reach the send stage
against such an environment still records one (failed) outcome per recipient —
the batch continues past each rate-limited recipient. -/
theorem c6_rate_limit_three_attempts (env : SendEnv) (e : HttpErrData)
    (hauth : env.authenticated = true) (hsvc : env.serviceOk = Except.ok ())
    (hresp : ∀ n, env.attemptResult n = ApiAttemptResult.httpErr e)
    (hreason : e.reasonOpt = some "rateLimitExceeded")
    (hnoauth : isAuthErrorResp e = false)
    (benv : GBatchEnv) (recips : List Recipient)
    (hbstop : ∀ n, benv.stop n = false)
    (hbsend : ∀ r, benv.sendEnvOf r = env)
    (hbreach : ∀ r ∈ recips, GmailSender.reachesSend benv r = true) :
    GmailSender.send_email env =
      (SendResult.failed ("Limite de taxa excedido: " ++ e.estr),
       [SendEv.apiSend, SendEv.sleepSecs 5, SendEv.apiSend, SendEv.sleepSecs 5,
        SendEv.apiSend]) ∧
    (GmailSender.send_batch benv recips).1.detalhes.length = recips.length ∧
    ∀ d ∈ (GmailSender.send_batch benv recips).1.detalhes,
      d.status = "erro" ∧ d.mensagem = "Limite de taxa excedido: " ++ e.estr := by
  have hsend : GmailSender.send_email env =
      (SendResult.failed ("Limite de taxa excedido: " ++ e.estr),
       [SendEv.apiSend, SendEv.sleepSecs 5, SendEv.apiSend, SendEv.sleepSecs 5,
        SendEv.apiSend]) := by
    simp only [GmailSender.send_email, hauth, hsvc, Bool.not_true, Bool.false_eq_true,
      if_false]
    simp [GmailSender.sendGo, hresp, hreason, hnoauth]
  have hdets : (GmailSender.send_batch benv recips).1.detalhes =
      recips.map (GmailSender.detailOf benv) :=
    (gmail_go_nostop benv recips.length hbstop recips 1).1
  refine ⟨hsend, ?_, ?_⟩
  · rw [hdets]
    simp
  · intro d hd
    rw [hdets] at hd
    rw [List.mem_map] at hd
    obtain ⟨r, hr, hdr⟩ := hd
    have hreach := hbreach r hr
    rw [GmailSender.reachesSend] at hreach
    subst hdr
    cases hst : GmailSender.stageOf benv r with
    | missingEmail => rw [hst] at hreach; simp at hreach
    | invalidEmail m => rw [hst] at hreach; simp at hreach
    | renderFailed er => rw [hst] at hreach; simp at hreach
    | sendDone res =>
      have hval := gmail_stage_sendDone_val benv r res hst
      rw [hbsend r, hsend] at hval
      simp only [hval] at hst
      simp [GmailSender.detailOf, hst]

/-- Witness for C6 at the concrete always-rate-limited environment. -/
theorem c6_rate_limit_witness :
    GmailSender.send_email c6Env =
      (SendResult.failed ("Limite de taxa excedido: " ++ "e"),
       [SendEv.apiSend, SendEv.sleepSecs 5, SendEv.apiSend, SendEv.sleepSecs 5,
        SendEv.apiSend]) ∧
    (GmailSender.send_batch c6BEnv c6Recips).1.detalhes.length = c6Recips.length ∧
    ∀ d ∈ (GmailSender.send_batch c6BEnv c6Recips).1.detalhes,
      d.status = "erro" ∧ d.mensagem = "Limite de taxa excedido: " ++ "e" := by
  exact c6_rate_limit_three_attempts c6Env
    { status := none, reasonOpt := some "rateLimitExceeded", estr := "e" }
    rfl rfl (fun _ => rfl) rfl (by decide) c6BEnv c6Recips (fun _ => rfl)
    (fun _ => rfl) (by decide)

/-- C3 (counterexample): with every attempt reporting a 401 auth error and a
succeeding refresh, the retried send's renewed auth error is NOT classified as
"authentication expired": the send is retried under the generic policy
(2-second pause) and the final outcome is the generic
"Erro Gmail API: …" failure after 3 API sends — the claim requires the
outcome reason "authentication expired" (Autenticação expirada) after a
single retry. -/
theorem c3_counterexample :
    GmailSender.send_email c3Env =
      (SendResult.failed ("Erro Gmail API: " ++ "x"),
       [SendEv.apiSend, SendEv.refreshAuth true, SendEv.sleepSecs 1,
        SendEv.apiSend, SendEv.sleepSecs 2, SendEv.apiSend]) ∧
    ("Erro Gmail API: " ++ "x") ≠ "Autenticação expirada. Faça login novamente." ∧
    ((GmailSender.send_email c3Env).2.filter isApiSendEv).length = 3 := by
  refine ⟨by decide, by decide, by decide⟩

/-- Filtering refresh events past an `apiSend` head. -/
theorem refresh_filter_apiSend (l : List SendEv) :
    List.filter isRefreshEv (SendEv.apiSend :: l) = List.filter isRefreshEv l := by
  simp [List.filter_cons, isRefreshEv]

/-- Filtering refresh events past a `metaFetch` head. -/
theorem refresh_filter_metaFetch (l : List SendEv) :
    List.filter isRefreshEv (SendEv.metaFetch :: l) = List.filter isRefreshEv l := by
  simp [List.filter_cons, isRefreshEv]

/-- Filtering refresh events past a sleep head. -/
theorem refresh_filter_sleep (n : Nat) (l : List SendEv) :
    List.filter isRefreshEv (SendEv.sleepSecs n :: l) = List.filter isRefreshEv l := by
  simp [List.filter_cons, isRefreshEv]

/-- Filtering refresh events keeps a `refreshAuth` head. -/
theorem refresh_filter_refresh (b : Bool) (l : List SendEv) :
    List.filter isRefreshEv (SendEv.refreshAuth b :: l) =
      SendEv.refreshAuth b :: List.filter isRefreshEv l := by
  simp [List.filter_cons, isRefreshEv]

/-- In every run of the send-retry loop, at most one credential refresh is ever
attempted (none once `attempted_refresh` is set). -/
theorem gmail_sendGo_refresh_le (env : SendEnv) (rc : Nat) :
    ∀ (remaining attempt : Nat) (ar : Bool),
      ((GmailSender.sendGo env rc attempt remaining ar).2.filter isRefreshEv).length ≤
        (if ar then 0 else 1) := by
  intro remaining
  induction remaining with
  | zero =>
    intro attempt ar
    simp [GmailSender.sendGo]
  | succ rem ih =>
    intro attempt ar
    cases hres : env.attemptResult attempt with
    | success sent fetched =>
      rw [GmailSender.sendGo]
      simp only [hres]
      cases fetched <;> cases ar <;> simp [isRefreshEv]
    | httpErr e =>
      rw [GmailSender.sendGo]
      simp only [hres]
      cases ar
      · have hnextF := ih (attempt + 1) false
        have hnextT := ih (attempt + 1) true
        simp only [Bool.false_eq_true, if_false] at hnextF ⊢
        simp only [if_true] at hnextT
        simp only [Bool.not_false, Bool.and_true]
        by_cases hae : isAuthErrorResp e = true
        · simp only [hae, if_true]
          by_cases hro : env.refreshOk
          · simp only [hro, if_true]
            rw [refresh_filter_apiSend, refresh_filter_refresh, refresh_filter_sleep]
            simp only [List.length_cons]
            omega
          · simp only [hro, Bool.false_eq_true, if_false]
            rw [refresh_filter_apiSend, refresh_filter_refresh]
            simp
        · simp only [hae, Bool.false_eq_true, if_false]
          by_cases hrate : (e.reasonOpt.getD e.estr) = "rateLimitExceeded"
          · simp only [hrate, if_true]
            by_cases hlt : attempt < rc - 1
            · simp only [hlt, if_true]
              rw [refresh_filter_apiSend, refresh_filter_sleep]
              omega
            · simp only [hlt, if_false]
              rw [refresh_filter_apiSend]
              simp
          · simp only [hrate, Bool.false_eq_true, if_false]
            by_cases hquota : (e.reasonOpt.getD e.estr) = "quotaExceeded"
            · simp only [hquota, if_true]
              rw [refresh_filter_apiSend]
              simp
            · simp only [hquota, Bool.false_eq_true, if_false]
              by_cases hlt : attempt < rc - 1
              · simp only [hlt, if_true]
                rw [refresh_filter_apiSend, refresh_filter_sleep]
                omega
              · simp only [hlt, if_false]
                rw [refresh_filter_apiSend]
                simp
      · have hnextT := ih (attempt + 1) true
        simp only [if_true] at hnextT ⊢
        simp only [Bool.not_true, Bool.and_false, Bool.false_eq_true, if_false]
        by_cases hrate : (e.reasonOpt.getD e.estr) = "rateLimitExceeded"
        · simp only [hrate, if_true]
          by_cases hlt : attempt < rc - 1
          · simp only [hlt, if_true]
            rw [refresh_filter_apiSend, refresh_filter_sleep]
            omega
          · simp only [hlt, if_false]
            rw [refresh_filter_apiSend]
            simp
        · simp only [hrate, Bool.false_eq_true, if_false]
          by_cases hquota : (e.reasonOpt.getD e.estr) = "quotaExceeded"
          · simp only [hquota, if_true]
            rw [refresh_filter_apiSend]
            simp
          · simp only [hquota, Bool.false_eq_true, if_false]
            by_cases hlt : attempt < rc - 1
            · simp only [hlt, if_true]
              rw [refresh_filter_apiSend, refresh_filter_sleep]
              omega
            · simp only [hlt, if_false]
              rw [refresh_filter_apiSend]
              simp
    | otherExc estr =>
      rw [GmailSender.sendGo]
      simp only [hres]
      cases ar
      · have hnextF := ih (attempt + 1) false
        simp only [Bool.false_eq_true, if_false] at hnextF ⊢
        by_cases hlt : attempt < rc - 1
        · simp only [hlt, if_true]
          rw [refresh_filter_apiSend, refresh_filter_sleep]
          omega
        · simp only [hlt, if_false]
          rw [refresh_filter_apiSend]
          simp
      · have hnextT := ih (attempt + 1) true
        simp only [if_true] at hnextT ⊢
        by_cases hlt : attempt < rc - 1
        · simp only [hlt, if_true]
          rw [refresh_filter_apiSend, refresh_filter_sleep]
          omega
        · simp only [hlt, if_false]
          rw [refresh_filter_apiSend]
          simp

/-- C3 (amended): on an auth-expired provider error, exactly one in-place
credential refresh is attempted for the recipient (never more than one per
`send_email` call); if the refresh fails, the outcome is the
"Autenticação expirada" failure (the spec's "authentication expired") after a
single API send; but if the refresh succeeds and the retried send still
reports auth-expired, the error falls through to the generic provider-error
policy (2-second pause, 3-attempt bound) and the final outcome is the generic
"Erro Gmail API" failure, not "authentication expired". -/
theorem c3_auth_refresh_amended :
    (∀ env : SendEnv,
      ((GmailSender.send_email env).2.filter isRefreshEv).length ≤ 1) ∧
    (∀ (env : SendEnv) (e0 : HttpErrData),
      env.authenticated = true → env.serviceOk = Except.ok () →
      env.attemptResult 0 = ApiAttemptResult.httpErr e0 →
      isAuthErrorResp e0 = true → env.refreshOk = false →
      GmailSender.send_email env =
        (SendResult.failed "Autenticação expirada. Faça login novamente.",
         [SendEv.apiSend, SendEv.refreshAuth false])) ∧
    (∀ (env : SendEnv) (e : Nat → HttpErrData),
      env.authenticated = true → env.serviceOk = Except.ok () →
      (∀ n, env.attemptResult n = ApiAttemptResult.httpErr (e n)) →
      (∀ n, isAuthErrorResp (e n) = true) →
      (∀ n, (e n).reasonOpt.getD (e n).estr ≠ "rateLimitExceeded") →
      (∀ n, (e n).reasonOpt.getD (e n).estr ≠ "quotaExceeded") →
      env.refreshOk = true →
      GmailSender.send_email env =
        (SendResult.failed ("Erro Gmail API: " ++ (e 2).estr),
         [SendEv.apiSend, SendEv.refreshAuth true, SendEv.sleepSecs 1,
          SendEv.apiSend, SendEv.sleepSecs 2, SendEv.apiSend])) := by
  refine ⟨?_, ?_, ?_⟩
  · intro env
    by_cases hauth : env.authenticated
    · cases hsvc : env.serviceOk with
      | error estr =>
        simp [GmailSender.send_email, hauth, hsvc]
      | ok u =>
        have h := gmail_sendGo_refresh_le env 3 3 0 false
        simp only [Bool.false_eq_true, if_false] at h
        simpa [GmailSender.send_email, hauth, hsvc] using h
    · simp only [Bool.not_eq_true] at hauth
      simp [GmailSender.send_email, hauth]
  · intro env e0 hauth hsvc hresp hae hro
    simp only [GmailSender.send_email, hauth, hsvc, Bool.not_true, Bool.false_eq_true,
      if_false]
    rw [GmailSender.sendGo]
    simp [hresp, hae, hro]
  · intro env e hauth hsvc hresp hae hrate hquota hro
    simp only [GmailSender.send_email, hauth, hsvc, Bool.not_true, Bool.false_eq_true,
      if_false]
    rw [GmailSender.sendGo]
    simp only [hresp 0, hae 0, Bool.not_false, Bool.and_true, if_true, hro]
    rw [GmailSender.sendGo]
    simp only [hresp 1, hae 1, Bool.not_true, Bool.and_false, Bool.false_eq_true,
      if_false]
    simp only [hrate 1, hquota 1, if_false]
    rw [GmailSender.sendGo]
    simp only [hresp 2, hae 2, Bool.not_true, Bool.and_false, Bool.false_eq_true,
      if_false]
    simp only [hrate 2, hquota 2, if_false]
    simp

/-- Witness for C3's amended statement at concrete environments. -/
theorem c3_auth_refresh_witness :
    ((GmailSender.send_email c3Env).2.filter isRefreshEv).length ≤ 1 ∧
    GmailSender.send_email c3FailEnv =
      (SendResult.failed "Autenticação expirada. Faça login novamente.",
       [SendEv.apiSend, SendEv.refreshAuth false]) ∧
    GmailSender.send_email c3Env =
      (SendResult.failed ("Erro Gmail API: " ++ "x"),
       [SendEv.apiSend, SendEv.refreshAuth true, SendEv.sleepSecs 1,
        SendEv.apiSend, SendEv.sleepSecs 2, SendEv.apiSend]) := by
  refine ⟨c3_auth_refresh_amended.1 c3Env,
    c3_auth_refresh_amended.2.1 c3FailEnv authErr401 rfl rfl rfl (by decide) rfl,
    c3_auth_refresh_amended.2.2 c3Env (fun _ => authErr401) rfl rfl (fun _ => rfl)
      (fun _ => show isAuthErrorResp authErr401 = true by decide)
      (fun _ => show authErr401.reasonOpt.getD authErr401.estr ≠ "rateLimitExceeded" by decide)
      (fun _ => show authErr401.reasonOpt.getD authErr401.estr ≠ "quotaExceeded" by decide) rfl⟩

/-- C4 (counterexample): a successful provider send whose follow-up metadata
fetch also succeeds (the primary success path) yields a detail whose
`raw_hash` is `None` even though the send succeeded, every attachment hash was
computed, and the raw-hash oracle works — the claim requires a raw-message
hash on every successful send, but only the fallback branch (metadata fetch
failed) returns the raw message to hash. -/
theorem c4_counterexample :
    ((GmailSender.send_batch c4GEnv c4Recips).1.detalhes.getD 0 gmailMissingDetail).status = "enviado" ∧
    ((GmailSender.send_batch c4GEnv c4Recips).1.detalhes.getD 0 gmailMissingDetail).attachments_hashes = [("f.pdf", "deadbeef")] ∧
    ((GmailSender.send_batch c4GEnv c4Recips).1.detalhes.getD 0 gmailMissingDetail).raw_hash = none ∧
    (GmailSender.send_batch c4GEnv c4Recips).1.enviados = 1 := by
  refine ⟨by decide, by decide, by decide, by decide⟩

/-- C4 (amended): on every successful provider-API send the per-attachment
SHA-256 dict is computed and attached (entries are skipped exactly for
attachments whose read/hash raised), and the outcome status stays `enviado`
whatever the hashing oracles return — hashing or metadata-enrichment failures
never downgrade a sent outcome; the hash of the raw transmitted message,
however, is computed and attached only when the post-send metadata fetch
failed, because only that fallback result carries the raw message
(`raw`/`history_id` are present only in the fallback dict). -/
theorem c4_hashes_amended :
    (∀ (benv : GBatchEnv) (r : Recipient) (m : GmailSuccess),
      GmailSender.stageOf benv r = GStage.sendDone (SendResult.sent m) →
      (GmailSender.detailOf benv r).status = "enviado" ∧
      (GmailSender.detailOf benv r).attachments_hashes = GmailSender.attHashes benv ∧
      (GmailSender.detailOf benv r).raw_hash =
        (match m.rawOpt with
         | none => none
         | some rb => benv.hashRawB64 rb)) ∧
    (∀ (env : SendEnv) (sent : SentMsgInfo) (hs : List (String × String)),
      env.authenticated = true → env.serviceOk = Except.ok () →
      env.attemptResult 0 = ApiAttemptResult.success sent (some hs) →
      GmailSender.send_email env =
        (SendResult.sent { message := "Email enviado com sucesso. ID: " ++ pyShowOpt sent.idOpt, gmail_message_id := sent.idOpt, gmail_thread_id := sent.threadIdOpt, message_id := List.lookup "Message-ID" hs, headers := hs, rawOpt := none, history_id := none },
         [SendEv.apiSend, SendEv.metaFetch])) ∧
    (∀ (env : SendEnv) (sent : SentMsgInfo),
      env.authenticated = true → env.serviceOk = Except.ok () →
      env.attemptResult 0 = ApiAttemptResult.success sent none →
      GmailSender.send_email env =
        (SendResult.sent { message := "Email enviado com sucesso. ID: " ++ pyShowOpt sent.idOpt, gmail_message_id := sent.idOpt, gmail_thread_id := sent.threadIdOpt, message_id := List.lookup "Message-ID" env.localHeaders, headers := env.localHeaders, rawOpt := some env.rawB64, history_id := sent.historyIdOpt },
         [SendEv.apiSend, SendEv.metaFetch])) := by
  refine ⟨?_, ?_, ?_⟩
  · intro benv r m h
    simp [GmailSender.detailOf, h]
  · intro env sent hs hauth hsvc hresp
    simp only [GmailSender.send_email, hauth, hsvc, Bool.not_true, Bool.false_eq_true,
      if_false]
    rw [GmailSender.sendGo]
    simp [hresp]
  · intro env sent hauth hsvc hresp
    simp only [GmailSender.send_email, hauth, hsvc, Bool.not_true, Bool.false_eq_true,
      if_false]
    rw [GmailSender.sendGo]
    simp [hresp]

/-- Witness for C4's amended statement at the concrete fetch-success and
fetch-failure environments. -/
theorem c4_hashes_witness :
    ((GmailSender.detailOf c4GEnv { fields := [("email", "a@b.co")] }).status = "enviado" ∧
      (GmailSender.detailOf c4GEnv { fields := [("email", "a@b.co")] }).attachments_hashes = GmailSender.attHashes c4GEnv ∧
      (GmailSender.detailOf c4GEnv { fields := [("email", "a@b.co")] }).raw_hash = none) ∧
    GmailSender.send_email c4OkFetchEnv =
      (SendResult.sent { message := "Email enviado com sucesso. ID: " ++ pyShowOpt (some "mid"), gmail_message_id := some "mid", gmail_thread_id := some "tid", message_id := List.lookup "Message-ID" [("Message-ID", "<srv>")], headers := [("Message-ID", "<srv>")], rawOpt := none, history_id := none },
       [SendEv.apiSend, SendEv.metaFetch]) ∧
    GmailSender.send_email c4FallbackEnv =
      (SendResult.sent { message := "Email enviado com sucesso. ID: " ++ pyShowOpt (some "mid"), gmail_message_id := some "mid", gmail_thread_id := some "tid", message_id := List.lookup "Message-ID" [("Message-ID", "<local>")], headers := [("Message-ID", "<local>")], rawOpt := some "QQ==", history_id := some "hid" },
       [SendEv.apiSend, SendEv.metaFetch]) := by
  refine ⟨?_, ?_, ?_⟩
  · have h := c4_hashes_amended.1 c4GEnv { fields := [("email", "a@b.co")] }
      { message := "Email enviado com sucesso. ID: mid", gmail_message_id := some "mid", gmail_thread_id := some "tid", message_id := some "<srv>", headers := [("Message-ID", "<srv>")], rawOpt := none, history_id := none }
      (by decide)
    exact ⟨h.1, h.2.1, h.2.2⟩
  · exact c4_hashes_amended.2.1 c4OkFetchEnv
      { idOpt := some "mid", threadIdOpt := some "tid", historyIdOpt := some "hid" }
      [("Message-ID", "<srv>")] rfl rfl rfl
  · exact c4_hashes_amended.2.2 c4FallbackEnv
      { idOpt := some "mid", threadIdOpt := some "tid", historyIdOpt := some "hid" }
      rfl rfl rfl

/-- C9: when the interactive grant obtains a token bundle and it is persisted,
and only then an error surfaces (here: out of the verification block, whose
escaping raises are plain exceptions), `authenticate` still reports success;
more generally, any error reaching the generic top-level handler while the
token file is on disk yields the success result — the persisted token's
existence, not the absence of an error, is the success signal. -/
theorem c9_persisted_token_wins (env : AuthEnv) (c : Creds) (estr : String)
    (envG : AuthEnv) (e : PyErr) (st : AuthState)
    (h1 : env.tokenExists0 = false) (h2 : env.credentialsFileExists = true)
    (h3 : env.flowOutcome = FlowOutcome.obtained c) (h4 : env.saveOk = true)
    (h5 : env.verifyRaises = some estr)
    (hbody : GoogleOAuth.authBody envG = BodyOutcome.raised e st)
    (htok : st.tokenOnDisk = true) (hfnf : e.isFileNotFound = false)
    (hperm : e.isPermission = false) :
    GoogleOAuth.authenticate env = (true, "Autenticação realizada com sucesso!") ∧
    GoogleOAuth.authenticate envG = (true, "Autenticação realizada com sucesso!") := by
  constructor
  · simp [GoogleOAuth.authenticate, GoogleOAuth.authBody, GoogleOAuth.authFlow,
      GoogleOAuth.authSave, GoogleOAuth.authVerify, GoogleOAuth.authHandleTop,
      h1, h2, h3, h4, h5]
  · simp [GoogleOAuth.authenticate, hbody, GoogleOAuth.authHandleTop, htok, hfnf,
      hperm]

/-- Witness for C9 at the concrete grant-then-verification-error run. -/
theorem c9_persisted_token_witness :
    GoogleOAuth.authenticate c9Env = (true, "Autenticação realizada com sucesso!") := by
  exact (c9_persisted_token_wins c9Env
    { valid := true, expired := false, hasRefreshToken := true } "resp" c9Env
    { typeName := "AttributeError", estr := "resp", isFileNotFound := false, isPermission := false }
    { creds := some { valid := true, expired := false, hasRefreshToken := true }, tokenOnDisk := true }
    rfl rfl rfl rfl rfl (by decide) rfl rfl rfl).1

/-- Scanning past a character other than `{` finds the same placeholders. -/
theorem findPlaceholders_cons_of_ne (c : Char) (s : List Char) (hc : c ≠ lbChar) :
    findPlaceholders (c :: s) = findPlaceholders s := by
  rw [findPlaceholders.eq_def]
  simp [hc]

/-- Placeholder scanning skips a brace-free prefix. -/
theorem findPlaceholders_append_of_bracesFree (pre : List Char) (t : List Char)
    (hpre : bracesFree pre) :
    findPlaceholders (pre ++ t) = findPlaceholders t := by
  induction pre with
  | nil => rfl
  | cons c cs ih =>
    have hc : c ≠ lbChar := (hpre c (List.mem_cons_self c cs)).1
    rw [List.cons_append, findPlaceholders_cons_of_ne c (cs ++ t) hc]
    exact ih (fun x hx => hpre x (List.mem_cons_of_mem c hx))

/-- A brace-free string has no placeholders. -/
theorem findPlaceholders_eq_nil_of_bracesFree (s : List Char) (hs : bracesFree s) :
    findPlaceholders s = [] := by
  have h := findPlaceholders_append_of_bracesFree s [] hs
  rw [List.append_nil] at h
  rw [h, findPlaceholders.eq_def]

/-- A run of word characters followed by a closing brace is cut exactly at the
brace. -/
theorem takeWhile_word_append (p : List Char) (t : List Char)
    (hp : ∀ c ∈ p, isWordChar c = true) :
    List.takeWhile isWordChar (p ++ rbChar :: t) = p := by
  induction p with
  | nil => simp [List.takeWhile_cons, isWordChar, rbChar, Char.isAlphanum, Char.isAlpha, Char.isDigit, Char.isUpper, Char.isLower]
  | cons c cs ih =>
    have hc := hp c (List.mem_cons_self c cs)
    rw [List.cons_append, List.takeWhile_cons]
    simp only [hc, if_true]
    rw [ih (fun x hx => hp x (List.mem_cons_of_mem c hx))]

/-- A well-formed `{{name}}` token at the head of the scan is captured, and
scanning resumes after it. -/
theorem findPlaceholders_token (p : List Char) (post : List Char)
    (hp : p ≠ []) (hw : ∀ c ∈ p, isWordChar c = true) :
    findPlaceholders (phToken p ++ post) = p :: findPlaceholders post := by
  have hshape : phToken p ++ post = lbChar :: lbChar :: (p ++ rbChar :: rbChar :: post) := by
    simp [phToken]
  rw [hshape, findPlaceholders.eq_def]
  simp only [if_true]
  have htw : List.takeWhile isWordChar (p ++ rbChar :: rbChar :: post) = p :=
    takeWhile_word_append p (rbChar :: post) hw
  rw [htw]
  have hdrop : List.drop p.length (p ++ rbChar :: rbChar :: post) = rbChar :: rbChar :: post := by
    rw [List.drop_left]
  rw [hdrop]
  simp [hp]

/-- `str.replace` leaves a non-`{` head in place when the pattern starts with
`{`. -/
theorem replaceAll_cons_of_ne (pat' repl : List Char) (c : Char) (s : List Char)
    (hc : c ≠ lbChar) :
    replaceAll (lbChar :: pat') repl (c :: s) =
      c :: replaceAll (lbChar :: pat') repl s := by
  rw [replaceAll.eq_def]
  have : List.isPrefixOf (lbChar :: pat') (c :: s) = false := by
    simp [List.isPrefixOf, Ne.symm hc]
  simp [this]

/-- `str.replace` with a brace-delimited pattern leaves a brace-free string
unchanged. -/
theorem replaceAll_of_bracesFree (pat' repl : List Char) (s : List Char)
    (hs : bracesFree s) :
    replaceAll (lbChar :: pat') repl s = s := by
  induction s with
  | nil => rw [replaceAll.eq_def]
  | cons c cs ih =>
    have hc : c ≠ lbChar := (hs c (List.mem_cons_self c cs)).1
    rw [replaceAll_cons_of_ne pat' repl c cs hc]
    rw [ih (fun x hx => hs x (List.mem_cons_of_mem c hx))]

/-- `str.replace` substitutes the pattern occurrence after a brace-free
prefix and continues in the remainder. -/
theorem replaceAll_append_token (pat' repl : List Char) (pre tail : List Char)
    (hpre : bracesFree pre) :
    replaceAll (lbChar :: pat') repl (pre ++ (lbChar :: pat') ++ tail) =
      pre ++ repl ++ replaceAll (lbChar :: pat') repl tail := by
  induction pre with
  | nil =>
    simp only [List.nil_append]
    rw [replaceAll.eq_def]
    have hpref : List.isPrefixOf (lbChar :: pat') (lbChar :: pat' ++ tail) = true := by
      rw [List.isPrefixOf_iff_prefix]
      exact List.prefix_append (lbChar :: pat') tail
    rw [show lbChar :: pat' ++ tail = lbChar :: (pat' ++ tail) from rfl]
    simp only [hpref, if_true]
    have hdrop : (pat' ++ tail).drop ((lbChar :: pat').length - 1) = tail := by
      simp only [List.length_cons, Nat.add_sub_cancel]
      exact List.drop_left pat' tail
    rw [hdrop]
    simp [hpref]
  | cons c cs ih =>
    have hc : c ≠ lbChar := (hpre c (List.mem_cons_self c cs)).1
    rw [List.cons_append, List.cons_append, replaceAll_cons_of_ne pat' repl c _ hc]
    rw [show (cs ++ (lbChar :: pat') ++ tail : List Char) =
      cs ++ (lbChar :: pat') ++ tail from rfl]
    rw [ih (fun x hx => hpre x (List.mem_cons_of_mem c hx))]
    simp

/-- Stripping keeps a non-`{` head. -/
theorem stripUnresolved_cons_of_ne (c : Char) (s : List Char) (hc : c ≠ lbChar) :
    stripUnresolved (c :: s) = c :: stripUnresolved s := by
  rw [stripUnresolved.eq_def]
  simp [hc]

/-- Stripping passes over a brace-free prefix. -/
theorem stripUnresolved_append_of_bracesFree (pre t : List Char)
    (hpre : bracesFree pre) :
    stripUnresolved (pre ++ t) = pre ++ stripUnresolved t := by
  induction pre with
  | nil => rfl
  | cons c cs ih =>
    have hc : c ≠ lbChar := (hpre c (List.mem_cons_self c cs)).1
    rw [List.cons_append, stripUnresolved_cons_of_ne c (cs ++ t) hc]
    rw [ih (fun x hx => hpre x (List.mem_cons_of_mem c hx))]
    rfl

/-- Stripping leaves a brace-free string unchanged. -/
theorem stripUnresolved_of_bracesFree (s : List Char) (hs : bracesFree s) :
    stripUnresolved s = s := by
  have h := stripUnresolved_append_of_bracesFree s [] hs
  rw [List.append_nil] at h
  rw [h, stripUnresolved.eq_def]
  simp

/-- A run without closing braces, ended by a closing brace, is cut exactly
there. -/
theorem takeWhile_ne_rb_append (mid t : List Char) (hm : ∀ c ∈ mid, c ≠ rbChar) :
    List.takeWhile (fun x => x ≠ rbChar) (mid ++ rbChar :: t) = mid := by
  induction mid with
  | nil =>
    rw [List.nil_append, List.takeWhile_cons]
    rw [if_neg]
    simp
  | cons c cs ih =>
    have hc := hm c (List.mem_cons_self c cs)
    rw [List.cons_append, List.takeWhile_cons]
    rw [if_pos (by simp [hc])]
    rw [ih (fun x hx => hm x (List.mem_cons_of_mem c hx))]

/-- A placeholder-shaped token at the head of the strip scan is removed
entirely, and stripping resumes after it. -/
theorem stripUnresolved_token (mid post : List Char) (hm : mid ≠ [])
    (hmb : ∀ c ∈ mid, c ≠ rbChar) :
    stripUnresolved (lbChar :: lbChar :: (mid ++ rbChar :: rbChar :: post)) =
      stripUnresolved post := by
  rw [stripUnresolved.eq_def]
  simp only [if_true]
  have htw : List.takeWhile (fun x => x ≠ rbChar) (mid ++ rbChar :: rbChar :: post) = mid :=
    takeWhile_ne_rb_append mid (rbChar :: post) hmb
  rw [htw]
  have hdrop : List.drop mid.length (mid ++ rbChar :: rbChar :: post) =
      rbChar :: rbChar :: post := List.drop_left mid _
  rw [hdrop]
  simp [hm]

/-- Brace-freeness is preserved by concatenation. -/
theorem bracesFree_append (a b : List Char) (ha : bracesFree a) (hb : bracesFree b) :
    bracesFree (a ++ b) := by
  intro x hx
  rcases List.mem_append.mp hx with h | h
  · exact ha x h
  · exact hb x h

/-- Processing a template that consists of brace-free text around one
well-formed placeholder substitutes the value bound to the lower-cased key and
leaves the surrounding text intact. -/
theorem process_one_placeholder (p pre post v : List Char)
    (data : List Char → Option (List Char))
    (hpre : bracesFree pre) (hpost : bracesFree post) (hv : bracesFree v)
    (hp : p ≠ []) (hw : ∀ c ∈ p, isWordChar c = true)
    (hkey : data (pyLowerList p) = some v) :
    TemplateProcessor.process (pre ++ phToken p ++ post) data = pre ++ v ++ post := by
  have hfind : findPlaceholders (pre ++ phToken p ++ post) = [p] := by
    rw [List.append_assoc, findPlaceholders_append_of_bracesFree pre _ hpre,
      findPlaceholders_token p post hp hw,
      findPlaceholders_eq_nil_of_bracesFree post hpost]
  have hall : bracesFree (pre ++ v ++ post) :=
    bracesFree_append _ _ (bracesFree_append _ _ hpre hv) hpost
  simp only [TemplateProcessor.process]
  rw [hfind]
  simp only [List.foldl_cons, List.foldl_nil]
  rw [hkey]
  simp only [Option.getD_some]
  have h1 : replaceAll (phToken p) v (pre ++ phToken p ++ post) = pre ++ v ++ post := by
    rw [show phToken p = lbChar :: (lbChar :: p ++ [rbChar, rbChar]) from rfl]
    rw [replaceAll_append_token (lbChar :: p ++ [rbChar, rbChar]) v pre post hpre]
    rw [replaceAll_of_bracesFree _ v post hpost]
  rw [h1]
  have h2 : replaceAll (phToken (pyUpperList p)) v (pre ++ v ++ post) = pre ++ v ++ post := by
    rw [show phToken (pyUpperList p) =
      lbChar :: (lbChar :: pyUpperList p ++ [rbChar, rbChar]) from rfl]
    exact replaceAll_of_bracesFree _ v _ hall
  rw [h2]
  have h3 : replaceAll (phToken (pyCapitalizeList p)) v (pre ++ v ++ post) = pre ++ v ++ post := by
    rw [show phToken (pyCapitalizeList p) =
      lbChar :: (lbChar :: pyCapitalizeList p ++ [rbChar, rbChar]) from rfl]
    exact replaceAll_of_bracesFree _ v _ hall
  rw [h3]
  exact stripUnresolved_of_bracesFree _ hall

/-- The malformed token `{{full name}}` (space inside) is not captured by the
placeholder scan. -/
theorem findPlaceholders_fullname_token (post : List Char) (hpost : bracesFree post) :
    findPlaceholders (lbChar :: lbChar :: (fullNameChars ++ rbChar :: rbChar :: post)) = [] := by
  have htw : List.takeWhile isWordChar
      ('f' :: 'u' :: 'l' :: 'l' :: ' ' :: 'n' :: 'a' :: 'm' :: 'e' :: rbChar :: rbChar :: post) =
      ['f', 'u', 'l', 'l'] := by
    rw [List.takeWhile_cons, if_pos (by decide), List.takeWhile_cons,
      if_pos (by decide), List.takeWhile_cons, if_pos (by decide),
      List.takeWhile_cons, if_pos (by decide), List.takeWhile_cons,
      if_neg (by decide)]
  rw [show fullNameChars ++ rbChar :: rbChar :: post =
    'f' :: 'u' :: 'l' :: 'l' :: ' ' :: 'n' :: 'a' :: 'm' :: 'e' :: rbChar :: rbChar :: post from rfl]
  rw [findPlaceholders.eq_def]
  simp only [htw]
  rw [if_true, if_true]
  rw [show List.drop (['f', 'u', 'l', 'l'] : List Char).length
      ('f' :: 'u' :: 'l' :: 'l' :: ' ' :: 'n' :: 'a' :: 'm' :: 'e' :: rbChar :: rbChar :: post) =
      ' ' :: 'n' :: 'a' :: 'm' :: 'e' :: rbChar :: rbChar :: post from rfl]
  rw [show List.take 2 (' ' :: 'n' :: 'a' :: 'm' :: 'e' :: rbChar :: rbChar :: post) =
      [' ', 'n'] from rfl]
  rw [if_neg (by decide)]
  rw [findPlaceholders.eq_def]
  simp only []
  rw [if_true, if_neg (by decide : ¬ ('f' = lbChar))]
  rw [findPlaceholders_cons_of_ne _ _ (by decide), findPlaceholders_cons_of_ne _ _ (by decide),
    findPlaceholders_cons_of_ne _ _ (by decide), findPlaceholders_cons_of_ne _ _ (by decide),
    findPlaceholders_cons_of_ne _ _ (by decide), findPlaceholders_cons_of_ne _ _ (by decide),
    findPlaceholders_cons_of_ne _ _ (by decide), findPlaceholders_cons_of_ne _ _ (by decide),
    findPlaceholders_cons_of_ne _ _ (by decide), findPlaceholders_cons_of_ne _ _ (by decide),
    findPlaceholders_cons_of_ne _ _ (by decide)]
  exact findPlaceholders_eq_nil_of_bracesFree post hpost

/-- Processing a template with one malformed (space-containing) placeholder
token removes the token entirely and leaves the surrounding text intact. -/
theorem process_malformed_fullname (pre post : List Char)
    (data : List Char → Option (List Char))
    (hpre : bracesFree pre) (hpost : bracesFree post) :
    TemplateProcessor.process
        (pre ++ (lbChar :: lbChar :: (fullNameChars ++ [rbChar, rbChar])) ++ post) data =
      pre ++ post := by
  have hshape : pre ++ (lbChar :: lbChar :: (fullNameChars ++ [rbChar, rbChar])) ++ post =
      pre ++ (lbChar :: lbChar :: (fullNameChars ++ rbChar :: rbChar :: post)) := by
    simp
  rw [hshape]
  have hfind : findPlaceholders
      (pre ++ (lbChar :: lbChar :: (fullNameChars ++ rbChar :: rbChar :: post))) = [] := by
    rw [findPlaceholders_append_of_bracesFree pre _ hpre]
    exact findPlaceholders_fullname_token post hpost
  simp only [TemplateProcessor.process]
  rw [hfind]
  simp only [List.foldl_nil]
  rw [stripUnresolved_append_of_bracesFree pre _ hpre]
  rw [stripUnresolved_token fullNameChars post (by decide) (by decide)]
  rw [stripUnresolved_of_bracesFree post hpost]

/-- C8: for any brace-free surrounding text and value, the placeholders
`{{col}}`, `{{COL}}` and `{{Col}}` all resolve — against the same lower-cased
key `col` of the recipient record — to the same substituted value, leaving the
surrounding text intact; and the malformed placeholder-shaped token
`{{full name}}` is removed entirely from the output, leaving the surrounding
text intact. -/
theorem c8_placeholder_case_roundtrip (pre post v : List Char)
    (data : List Char → Option (List Char))
    (hpre : bracesFree pre) (hpost : bracesFree post) (hv : bracesFree v)
    (hdata : data colKey = some v) :
    TemplateProcessor.process (pre ++ phToken ['c', 'o', 'l'] ++ post) data =
      pre ++ v ++ post ∧
    TemplateProcessor.process (pre ++ phToken ['C', 'O', 'L'] ++ post) data =
      pre ++ v ++ post ∧
    TemplateProcessor.process (pre ++ phToken ['C', 'o', 'l'] ++ post) data =
      pre ++ v ++ post ∧
    TemplateProcessor.process
        (pre ++ (lbChar :: lbChar :: (fullNameChars ++ [rbChar, rbChar])) ++ post) data =
      pre ++ post := by
  refine ⟨?_, ?_, ?_, ?_⟩
  · exact process_one_placeholder ['c', 'o', 'l'] pre post v data hpre hpost hv
      (by decide) (by decide)
      (by rw [show pyLowerList ['c', 'o', 'l'] = colKey from by decide]; exact hdata)
  · exact process_one_placeholder ['C', 'O', 'L'] pre post v data hpre hpost hv
      (by decide) (by decide)
      (by rw [show pyLowerList ['C', 'O', 'L'] = colKey from by decide]; exact hdata)
  · exact process_one_placeholder ['C', 'o', 'l'] pre post v data hpre hpost hv
      (by decide) (by decide)
      (by rw [show pyLowerList ['C', 'o', 'l'] = colKey from by decide]; exact hdata)
  · exact process_malformed_fullname pre post data hpre hpost

/-- Witness for C8 at the template `Hi {{col}}!` (and case variants) against a
record binding `col` to `Bob`. -/
theorem c8_placeholder_witness :
    TemplateProcessor.process
        (['H', 'i', ' '] ++ phToken ['c', 'o', 'l'] ++ ['!'])
        (fun k => if k = colKey then some ['B', 'o', 'b'] else none) =
      ['H', 'i', ' '] ++ ['B', 'o', 'b'] ++ ['!'] ∧
    TemplateProcessor.process
        (['H', 'i', ' '] ++ phToken ['C', 'O', 'L'] ++ ['!'])
        (fun k => if k = colKey then some ['B', 'o', 'b'] else none) =
      ['H', 'i', ' '] ++ ['B', 'o', 'b'] ++ ['!'] ∧
    TemplateProcessor.process
        (['H', 'i', ' '] ++ phToken ['C', 'o', 'l'] ++ ['!'])
        (fun k => if k = colKey then some ['B', 'o', 'b'] else none) =
      ['H', 'i', ' '] ++ ['B', 'o', 'b'] ++ ['!'] ∧
    TemplateProcessor.process
        (['H', 'i', ' '] ++ (lbChar :: lbChar :: (fullNameChars ++ [rbChar, rbChar])) ++ ['!'])
        (fun k => if k = colKey then some ['B', 'o', 'b'] else none) =
      ['H', 'i', ' '] ++ ['!'] := by
  exact c8_placeholder_case_roundtrip ['H', 'i', ' '] ['!'] ['B', 'o', 'b']
    (fun k => if k = colKey then some ['B', 'o', 'b'] else none)
    (by unfold bracesFree; decide) (by unfold bracesFree; decide)
    (by unfold bracesFree; decide) (by decide)

/-- Witness for C7 at a concrete two-recipient batch whose first recipient has
no `email` key. -/
theorem c7_missing_address_witness :
    (GmailSender.send_batch c5GEnv c5Recips).1.detalhes.get? 0 = some gmailMissingDetail ∧
    BatchEv.renderCall 1 ∉ (GmailSender.send_batch c5GEnv c5Recips).2 ∧
    BatchEv.sendCall 1 ∉ (GmailSender.send_batch c5GEnv c5Recips).2 ∧
    (EmailSender.send_batch c5SEnv c5Recips).1.detalhes.get? 0 = some smtpMissingDetail ∧
    BatchEv.renderCall 1 ∉ (EmailSender.send_batch c5SEnv c5Recips).2 ∧
    BatchEv.sendCall 1 ∉ (EmailSender.send_batch c5SEnv c5Recips).2 := by
  have h := c7_missing_address_no_render_no_send c5GEnv c5SEnv c5Recips 0
    (fun _ => rfl) (fun _ => rfl) (by decide) rfl
  exact ⟨h.1, h.2.1, h.2.2.1, h.2.2.2.2.1, h.2.2.2.2.2.1, h.2.2.2.2.2.2.1⟩

/-- Witness for C5's amended statement at the concrete two-recipient batch. -/
theorem c5_amended_delay_witness :
    (BatchEv.pacingSleep 1 ∈ (GmailSender.send_batch c5GEnv c5Recips).2 ↔
      (1 ≤ 1 ∧ 1 < c5Recips.length ∧ (∀ m, m < 1 → c5GEnv.stop m = false) ∧
        GmailSender.reachesSend c5GEnv (c5Recips.getD 0 defaultRecipient) = true)) ∧
    (BatchEv.pacingSleep 1 ∈ (EmailSender.send_batch c5SEnv c5Recips).2 ↔
      (1 ≤ 1 ∧ 1 < c5Recips.length ∧ (∀ m, m < 1 → c5SEnv.stop m = false) ∧
        EmailSender.reachesSend c5SEnv (c5Recips.getD 0 defaultRecipient) = true)) :=
  c5_amended_delay_placement c5GEnv c5SEnv c5Recips c5Recips 1 1
